import Mathlib

/-!
Verification of the liftmetrics ingestion and metrics pipeline.

The Go sources are shallowly embedded: SQLite REAL columns become `ℚ`,
TEXT columns become `String`, derived columns that the schema leaves
NULL until a later calculator fills them become `Option ℚ`, and each
SQL statement of a calculator becomes a pure function on a database
state.  Names follow the Go source files `internal/db/database.go`,
`internal/db/feature_calculations.go`, `internal/services/downloader.go`,
the revision checker, and `pkg/utils.go`.

Go standard-library string functions are embedded structurally over the
character list of a `String` so that they compute inside the kernel.
-/

/-! ### Embeddings of the Go string functions used by the sources -/

/-- Embeds `strings.HasPrefix s p`. -/
def strHasPrefix (s p : String) : Bool := p.data.isPrefixOf s.data

/-- Embeds `strings.HasSuffix s p`. -/
def strHasSuffix (s p : String) : Bool := p.data.reverse.isPrefixOf s.data.reverse

/-- Embeds `strings.TrimPrefix s p` (drops `p` when it is a prefix, else
returns `s` unchanged). -/
def strTrimPrefix (s p : String) : String :=
  if strHasPrefix s p then String.mk (s.data.drop p.data.length) else s

/-- Embeds `strings.TrimSuffix s p` (drops `p` when it is a suffix, else
returns `s` unchanged). -/
def strTrimSuffix (s p : String) : String :=
  if strHasSuffix s p then String.mk (s.data.take (s.data.length - p.data.length)) else s

/-- ASCII whitespace as recognised by `strings.TrimSpace` on the inputs
at hand. -/
def isSpaceChar (c : Char) : Bool := c == ' ' || c == '\t' || c == '\n' || c == '\r'

/-- Embeds `strings.TrimSpace`. -/
def strTrimSpace (s : String) : String :=
  String.mk (((s.data.dropWhile isSpaceChar).reverse.dropWhile isSpaceChar).reverse)

/-- Splits a character list on a separator character; helper for
`strSplitOnChar`. -/
def splitOnChar (sep : Char) : List Char → List (List Char)
  | [] => [[]]
  | c :: cs =>
    let rest := splitOnChar sep cs
    if c == sep then [] :: rest
    else match rest with
      | [] => [[c]]
      | g :: gs => (c :: g) :: gs

/-- Embeds `strings.Split s sep` for the single-character separators the
sources use (`-` and the path separator). -/
def strSplitOnChar (sep : Char) (s : String) : List String :=
  (splitOnChar sep s.data).map String.mk

/-- Embeds `filepath.Base` for the slash-separated paths the sources
build. -/
def baseName (p : String) : String := (strSplitOnChar '/' p).getLastD p

/-! ### The raw data model (`internal/db/database.go`) -/

/-- One competition result row, embedding the Go `Record` struct of
`internal/db/database.go` (float64 becomes ℚ, string becomes String).
`ID` is the surrogate key minted by `PopulateDatabase`. -/
structure Record where
  ID               : String
  Name             : String
  Sex              : String
  Event            : String
  Equipment        : String
  Age              : ℚ
  AgeClass         : String
  BirthYearClass   : String
  Division         : String
  BodyweightKg     : ℚ
  WeightClassKg    : String
  Squat1Kg         : ℚ
  Squat2Kg         : ℚ
  Squat3Kg         : ℚ
  Squat4Kg         : ℚ
  Best3SquatKg     : ℚ
  Bench1Kg         : ℚ
  Bench2Kg         : ℚ
  Bench3Kg         : ℚ
  Bench4Kg         : ℚ
  Best3BenchKg     : ℚ
  Deadlift1Kg      : ℚ
  Deadlift2Kg      : ℚ
  Deadlift3Kg      : ℚ
  Deadlift4Kg      : ℚ
  Best3DeadliftKg  : ℚ
  TotalKg          : ℚ
  Place            : String
  Dots             : ℚ
  Wilks            : ℚ
  Glossbrenner     : ℚ
  Goodlift         : ℚ
  Tested           : String
  Country          : String
  State            : String
  Federation       : String
  ParentFederation : String
  Date             : String
  MeetCountry      : String
  MeetState        : String
  MeetTown         : String
  MeetName         : String
  Sanctioned       : String

/-- A record with every numeric column 0 and every text column empty;
concrete test rows override only the fields they exercise. -/
def blankRecord : Record where
  ID := ""
  Name := ""
  Sex := ""
  Event := ""
  Equipment := ""
  Age := 0
  AgeClass := ""
  BirthYearClass := ""
  Division := ""
  BodyweightKg := 0
  WeightClassKg := ""
  Squat1Kg := 0
  Squat2Kg := 0
  Squat3Kg := 0
  Squat4Kg := 0
  Best3SquatKg := 0
  Bench1Kg := 0
  Bench2Kg := 0
  Bench3Kg := 0
  Bench4Kg := 0
  Best3BenchKg := 0
  Deadlift1Kg := 0
  Deadlift2Kg := 0
  Deadlift3Kg := 0
  Deadlift4Kg := 0
  Best3DeadliftKg := 0
  TotalKg := 0
  Place := ""
  Dots := 0
  Wilks := 0
  Glossbrenner := 0
  Goodlift := 0
  Tested := ""
  Country := ""
  State := ""
  Federation := ""
  ParentFederation := ""
  Date := ""
  MeetCountry := ""
  MeetState := ""
  MeetTown := ""
  MeetName := ""
  Sanctioned := ""

/-! ### SQL scalar functions used by the calculators -/

/-- SQLite scalar `ABS(x)`. -/
def sqlAbs (x : ℚ) : ℚ := if x < 0 then -x else x

/-- SQLite two-argument scalar `MAX(a, b)`. -/
def sqlMax (a b : ℚ) : ℚ := if a ≤ b then b else a

/-- SQLite `MAX(ABS(a), ABS(b), ABS(c))`, as written throughout
`LiftDifferences.Calculate`. -/
def maxAbs3 (a b c : ℚ) : ℚ := sqlMax (sqlAbs a) (sqlMax (sqlAbs b) (sqlAbs c))

/-- The per-attempt percentage expression of `LiftDifferences.Calculate`:
`CASE WHEN MAX(ABS(a1),ABS(a2),ABS(a3)) = 0 THEN 0
 ELSE ABS(x) / MAX(ABS(a1),ABS(a2),ABS(a3)) * 100 END`. -/
def percAttempt (a1 a2 a3 x : ℚ) : ℚ :=
  if maxAbs3 a1 a2 a3 = 0 then 0 else sqlAbs x / maxAbs3 a1 a2 a3 * 100

/-- The attempt counter of `SuccessfulAttempts.Calculate`:
`(CASE WHEN a > 0 THEN 1 ELSE 0 END) + ...` over the three attempts of
one lift. -/
def countPos (a b c : ℚ) : ℕ :=
  (if 0 < a then 1 else 0) + (if 0 < b then 1 else 0) + (if 0 < c then 1 else 0)

/-- SQL `AVG` over the values of a (nonempty) group. -/
def sqlAvg (xs : List ℚ) : ℚ := xs.sum / (xs.length : ℚ)

/-! ### lifter_metrics (`SuccessfulAttempts`, `LiftDifferences`) -/

/-- One `lifter_metrics` row.  The percentage and delta columns are
`Option ℚ` because the schema leaves them NULL until
`LiftDifferences.Calculate` fills them. -/
structure LifterMetric where
  ID : String
  Name : String
  Date : String
  Equipment : String
  SuccessfulSquatAttempts : ℕ
  SuccessfulBenchAttempts : ℕ
  SuccessfulDeadliftAttempts : ℕ
  TotalSuccessfulAttempts : ℕ
  Squat1Perc : Option ℚ
  Squat2Perc : Option ℚ
  Squat3Perc : Option ℚ
  Bench1Perc : Option ℚ
  Bench2Perc : Option ℚ
  Bench3Perc : Option ℚ
  Deadlift1Perc : Option ℚ
  Deadlift2Perc : Option ℚ
  Deadlift3Perc : Option ℚ
  Squat1To2Kg : Option ℚ
  Squat2To3Kg : Option ℚ
  Bench1To2Kg : Option ℚ
  Bench2To3Kg : Option ℚ
  Deadlift1To2Kg : Option ℚ
  Deadlift2To3Kg : Option ℚ

/-- The row `SuccessfulAttempts.Calculate` inserts
(`INSERT OR REPLACE INTO lifter_metrics ... SELECT ... FROM records`)
for one record: the four attempt counters are computed, every derived
column not in the column list is left at its NULL default. -/
def successfulAttemptsRow (r : Record) : LifterMetric where
  ID := r.ID
  Name := r.Name
  Date := r.Date
  Equipment := r.Equipment
  SuccessfulSquatAttempts := countPos r.Squat1Kg r.Squat2Kg r.Squat3Kg
  SuccessfulBenchAttempts := countPos r.Bench1Kg r.Bench2Kg r.Bench3Kg
  SuccessfulDeadliftAttempts := countPos r.Deadlift1Kg r.Deadlift2Kg r.Deadlift3Kg
  TotalSuccessfulAttempts :=
    countPos r.Squat1Kg r.Squat2Kg r.Squat3Kg
      + countPos r.Bench1Kg r.Bench2Kg r.Bench3Kg
      + countPos r.Deadlift1Kg r.Deadlift2Kg r.Deadlift3Kg
  Squat1Perc := none
  Squat2Perc := none
  Squat3Perc := none
  Bench1Perc := none
  Bench2Perc := none
  Bench3Perc := none
  Deadlift1Perc := none
  Deadlift2Perc := none
  Deadlift3Perc := none
  Squat1To2Kg := none
  Squat2To3Kg := none
  Bench1To2Kg := none
  Bench2To3Kg := none
  Deadlift1To2Kg := none
  Deadlift2To3Kg := none

/-- The `UPDATE lifter_metrics SET ... FROM records r` of
`LiftDifferences.Calculate`, applied to one metrics row joined with its
record: nine percentages and six consecutive-attempt deltas. -/
def liftDifferencesUpdate (r : Record) (m : LifterMetric) : LifterMetric :=
  { m with
    Squat1Perc := some (percAttempt r.Squat1Kg r.Squat2Kg r.Squat3Kg r.Squat1Kg)
    Squat2Perc := some (percAttempt r.Squat1Kg r.Squat2Kg r.Squat3Kg r.Squat2Kg)
    Squat3Perc := some (percAttempt r.Squat1Kg r.Squat2Kg r.Squat3Kg r.Squat3Kg)
    Bench1Perc := some (percAttempt r.Bench1Kg r.Bench2Kg r.Bench3Kg r.Bench1Kg)
    Bench2Perc := some (percAttempt r.Bench1Kg r.Bench2Kg r.Bench3Kg r.Bench2Kg)
    Bench3Perc := some (percAttempt r.Bench1Kg r.Bench2Kg r.Bench3Kg r.Bench3Kg)
    Deadlift1Perc := some (percAttempt r.Deadlift1Kg r.Deadlift2Kg r.Deadlift3Kg r.Deadlift1Kg)
    Deadlift2Perc := some (percAttempt r.Deadlift1Kg r.Deadlift2Kg r.Deadlift3Kg r.Deadlift2Kg)
    Deadlift3Perc := some (percAttempt r.Deadlift1Kg r.Deadlift2Kg r.Deadlift3Kg r.Deadlift3Kg)
    Squat1To2Kg := some (sqlAbs r.Squat2Kg - sqlAbs r.Squat1Kg)
    Squat2To3Kg := some (sqlAbs r.Squat3Kg - sqlAbs r.Squat2Kg)
    Bench1To2Kg := some (sqlAbs r.Bench2Kg - sqlAbs r.Bench1Kg)
    Bench2To3Kg := some (sqlAbs r.Bench3Kg - sqlAbs r.Bench2Kg)
    Deadlift1To2Kg := some (sqlAbs r.Deadlift2Kg - sqlAbs r.Deadlift1Kg)
    Deadlift2To3Kg := some (sqlAbs r.Deadlift3Kg - sqlAbs r.Deadlift2Kg) }

/-- The `lifter_metrics` row a record ends up with after step 2
(`SuccessfulAttempts`) inserts it and step 3 (`LiftDifferences`)
updates it through the ID/Date/Equipment join. -/
def lifterMetricOf (r : Record) : LifterMetric :=
  liftDifferencesUpdate r (successfulAttemptsRow r)

/-! ### max_lifts (`MaxSuccessfulAttempts`) -/

/-- One `max_lifts` row.  The copied numeric columns are `Option ℚ` so
that an unset (NULL) column is representable; the calculator always
copies the non-NULL record columns, so it always produces `some`. -/
structure MaxLiftRow where
  ID : String
  Name : String
  Date : String
  MeetName : String
  Equipment : String
  Best3SquatKg : Option ℚ
  Best3BenchKg : Option ℚ
  Best3DeadliftKg : Option ℚ
  TotalKg : Option ℚ
  Event : String

/-- The single unconditional column copy of
`MaxSuccessfulAttempts.Calculate` (`INSERT OR REPLACE INTO max_lifts ...
SELECT ID, Name, Date, MeetName, Equipment, Best3SquatKg, Best3BenchKg,
Best3DeadliftKg, TotalKg, Event FROM records`): there is no CASE or
other branch on the event type. -/
def maxLiftsRow (r : Record) : MaxLiftRow where
  ID := r.ID
  Name := r.Name
  Date := r.Date
  MeetName := r.MeetName
  Equipment := r.Equipment
  Best3SquatKg := some r.Best3SquatKg
  Best3BenchKg := some r.Best3BenchKg
  Best3DeadliftKg := some r.Best3DeadliftKg
  TotalKg := some r.TotalKg
  Event := r.Event

/-- The `WHERE Event IN (SBD, B)` filter of
`MaxSuccessfulAttempts.Calculate`. -/
def maxLiftsEventFilter (r : Record) : Bool := r.Event == "SBD" || r.Event == "B"

/-- The full result set of `MaxSuccessfulAttempts.Calculate` over the
records table. -/
def maxLiftsRows (recs : List Record) : List MaxLiftRow :=
  (recs.filter maxLiftsEventFilter).map maxLiftsRow

/-- Modelled from the spec, for comparison with `maxLiftsRow`: the
claimed MaxLifts behaviour in which the calculator branches on event
type and leaves the squat and deadlift columns unset (NULL) for
bench-only rows.  This definition follows the words of the claim, not
the source. -/
def maxLiftsRowClaimed (r : Record) : MaxLiftRow :=
  if r.Event = "B" then
    { ID := r.ID, Name := r.Name, Date := r.Date, MeetName := r.MeetName
      Equipment := r.Equipment, Best3SquatKg := none, Best3BenchKg := some r.Best3BenchKg
      Best3DeadliftKg := none, TotalKg := some r.TotalKg, Event := r.Event }
  else maxLiftsRow r

/-! ### aggregated_metrics_sbd / aggregated_metrics_bench
(`AggregatedMetrics`) -/

/-- One `aggregated_metrics_sbd` row. -/
structure AggregatedSBDRow where
  Name : String
  Equipment : String
  AvgSuccessfulSquatAttempts : ℚ
  AvgSuccessfulBenchAttempts : ℚ
  AvgSuccessfulDeadliftAttempts : ℚ
  AvgTotalSuccessfulAttempts : ℚ
  AvgSquat1Perc : ℚ
  AvgSquat2Perc : ℚ
  AvgSquat3Perc : ℚ
  AvgBench1Perc : ℚ
  AvgBench2Perc : ℚ
  AvgBench3Perc : ℚ
  AvgDeadlift1Perc : ℚ
  AvgDeadlift2Perc : ℚ
  AvgDeadlift3Perc : ℚ
  AvgSquat1To2Kg : ℚ
  AvgSquat2To3Kg : ℚ
  AvgBench1To2Kg : ℚ
  AvgBench2To3Kg : ℚ
  AvgDeadlift1To2Kg : ℚ
  AvgDeadlift2To3Kg : ℚ

/-- One `aggregated_metrics_bench` row. -/
structure AggregatedBenchRow where
  Name : String
  Equipment : String
  AvgSuccessfulBenchAttempts : ℚ
  AvgBench1Perc : ℚ
  AvgBench2Perc : ℚ
  AvgBench3Perc : ℚ
  AvgBench1To2Kg : ℚ
  AvgBench2To3Kg : ℚ

/-- Rows of the `JOIN records r ON lm.ID = r.ID AND lm.Date = r.Date
AND lm.Equipment = r.Equipment` used by both AggregatedMetrics queries,
restricted to one group of `GROUP BY lm.Name, lm.Equipment`. -/
def groupRows (rows : List (LifterMetric × Record)) (k : String × String) :
    List (LifterMetric × Record) :=
  rows.filter (fun p => p.1.Name == k.1 && p.1.Equipment == k.2)

/-- The distinct `GROUP BY lm.Name, lm.Equipment` keys of a join result. -/
def groupKeys (rows : List (LifterMetric × Record)) : List (String × String) :=
  (rows.map (fun p => (p.1.Name, p.1.Equipment))).dedup

/-- One output row of `AggregatedMetrics.calculateSBD` for one group.
`AVG(ABS(lm.c))` becomes the average of `sqlAbs` over the group; the
`.getD 0` unwrapping is exact here because every row that survives the
join has been filled by `LiftDifferences` in step 3 (SQL ABS and AVG
propagate/skip NULL, but no NULL reaches this stage of the pipeline). -/
def aggregatedSBDRowFor (rows : List (LifterMetric × Record)) (k : String × String) :
    AggregatedSBDRow :=
  let g := groupRows rows k
  { Name := k.1
    Equipment := k.2
    AvgSuccessfulSquatAttempts := sqlAvg (g.map (fun p => (p.1.SuccessfulSquatAttempts : ℚ)))
    AvgSuccessfulBenchAttempts := sqlAvg (g.map (fun p => (p.1.SuccessfulBenchAttempts : ℚ)))
    AvgSuccessfulDeadliftAttempts := sqlAvg (g.map (fun p => (p.1.SuccessfulDeadliftAttempts : ℚ)))
    AvgTotalSuccessfulAttempts := sqlAvg (g.map (fun p => (p.1.TotalSuccessfulAttempts : ℚ)))
    AvgSquat1Perc := sqlAvg (g.map (fun p => sqlAbs (p.1.Squat1Perc.getD 0)))
    AvgSquat2Perc := sqlAvg (g.map (fun p => sqlAbs (p.1.Squat2Perc.getD 0)))
    AvgSquat3Perc := sqlAvg (g.map (fun p => sqlAbs (p.1.Squat3Perc.getD 0)))
    AvgBench1Perc := sqlAvg (g.map (fun p => sqlAbs (p.1.Bench1Perc.getD 0)))
    AvgBench2Perc := sqlAvg (g.map (fun p => sqlAbs (p.1.Bench2Perc.getD 0)))
    AvgBench3Perc := sqlAvg (g.map (fun p => sqlAbs (p.1.Bench3Perc.getD 0)))
    AvgDeadlift1Perc := sqlAvg (g.map (fun p => sqlAbs (p.1.Deadlift1Perc.getD 0)))
    AvgDeadlift2Perc := sqlAvg (g.map (fun p => sqlAbs (p.1.Deadlift2Perc.getD 0)))
    AvgDeadlift3Perc := sqlAvg (g.map (fun p => sqlAbs (p.1.Deadlift3Perc.getD 0)))
    AvgSquat1To2Kg := sqlAvg (g.map (fun p => sqlAbs (p.1.Squat1To2Kg.getD 0)))
    AvgSquat2To3Kg := sqlAvg (g.map (fun p => sqlAbs (p.1.Squat2To3Kg.getD 0)))
    AvgBench1To2Kg := sqlAvg (g.map (fun p => sqlAbs (p.1.Bench1To2Kg.getD 0)))
    AvgBench2To3Kg := sqlAvg (g.map (fun p => sqlAbs (p.1.Bench2To3Kg.getD 0)))
    AvgDeadlift1To2Kg := sqlAvg (g.map (fun p => sqlAbs (p.1.Deadlift1To2Kg.getD 0)))
    AvgDeadlift2To3Kg := sqlAvg (g.map (fun p => sqlAbs (p.1.Deadlift2To3Kg.getD 0))) }

/-- One output row of `AggregatedMetrics.calculateBench` for one group. -/
def aggregatedBenchRowFor (rows : List (LifterMetric × Record)) (k : String × String) :
    AggregatedBenchRow :=
  let g := groupRows rows k
  { Name := k.1
    Equipment := k.2
    AvgSuccessfulBenchAttempts := sqlAvg (g.map (fun p => (p.1.SuccessfulBenchAttempts : ℚ)))
    AvgBench1Perc := sqlAvg (g.map (fun p => sqlAbs (p.1.Bench1Perc.getD 0)))
    AvgBench2Perc := sqlAvg (g.map (fun p => sqlAbs (p.1.Bench2Perc.getD 0)))
    AvgBench3Perc := sqlAvg (g.map (fun p => sqlAbs (p.1.Bench3Perc.getD 0)))
    AvgBench1To2Kg := sqlAvg (g.map (fun p => sqlAbs (p.1.Bench1To2Kg.getD 0)))
    AvgBench2To3Kg := sqlAvg (g.map (fun p => sqlAbs (p.1.Bench2To3Kg.getD 0))) }

/-- Modelled from the spec, for comparison with the source behaviour:
the claimed averaging rule of C4, an average restricted to the rows
whose relevant value is strictly positive (the claim: each average is
"restricted to rows whose relevant percentage is greater than 0").
This definition follows the words of the claim, not the source. -/
def sqlAvgOverPositive (xs : List ℚ) : ℚ := sqlAvg (xs.filter (fun x => decide (0 < x)))

/-! ### The remaining summary tables -/

/-- One `weight_class_distribution` row. -/
structure WeightClassDistributionRow where
  WeightClass : String
  Sex : String
  Count : ℕ

/-- Result set of `WeightClassDistribution.Calculate`:
`SELECT WeightClassKg, Sex, COUNT(DISTINCT Name) FROM records GROUP BY
WeightClassKg, Sex`. -/
def weightClassDistributionRows (recs : List Record) : List WeightClassDistributionRow :=
  ((recs.map (fun r => (r.WeightClassKg, r.Sex))).dedup).map (fun k =>
    { WeightClass := k.1
      Sex := k.2
      Count := ((recs.filter (fun r => r.WeightClassKg == k.1 && r.Sex == k.2)).map
        (fun r => r.Name)).dedup.length })

/-- One `age_group_performance` row. -/
structure AgeGroupPerformanceRow where
  AgeClass : String
  Sex : String
  AvgSquat : ℚ
  AvgBench : ℚ
  AvgDeadlift : ℚ
  AvgTotal : ℚ

/-- Result set of `AgeGroupPerformance.Calculate` (`WHERE AgeClass != ''
GROUP BY AgeClass, Sex` with four AVG columns). -/
def ageGroupPerformanceRows (recs : List Record) : List AgeGroupPerformanceRow :=
  let base := recs.filter (fun r => !(r.AgeClass == ""))
  ((base.map (fun r => (r.AgeClass, r.Sex))).dedup).map (fun k =>
    let g := base.filter (fun r => r.AgeClass == k.1 && r.Sex == k.2)
    { AgeClass := k.1
      Sex := k.2
      AvgSquat := sqlAvg (g.map (fun r => r.Best3SquatKg))
      AvgBench := sqlAvg (g.map (fun r => r.Best3BenchKg))
      AvgDeadlift := sqlAvg (g.map (fun r => r.Best3DeadliftKg))
      AvgTotal := sqlAvg (g.map (fun r => r.TotalKg)) })

/-- One `performance_trends` row. -/
structure PerformanceTrendsRow where
  Year : String
  Sex : String
  AvgSquat : ℚ
  AvgBench : ℚ
  AvgDeadlift : ℚ
  AvgTotal : ℚ

/-- Embeds `strftime(%Y, Date)` on the ISO-8601 date strings the
dataset stores: the leading four characters. -/
def strftimeYear (date : String) : String := String.mk (date.data.take 4)

/-- Result set of `PerformanceTrends.Calculate` (`GROUP BY Year, Sex`
with four AVG columns). -/
def performanceTrendsRows (recs : List Record) : List PerformanceTrendsRow :=
  ((recs.map (fun r => (strftimeYear r.Date, r.Sex))).dedup).map (fun k =>
    let g := recs.filter (fun r => strftimeYear r.Date == k.1 && r.Sex == k.2)
    { Year := k.1
      Sex := k.2
      AvgSquat := sqlAvg (g.map (fun r => r.Best3SquatKg))
      AvgBench := sqlAvg (g.map (fun r => r.Best3BenchKg))
      AvgDeadlift := sqlAvg (g.map (fun r => r.Best3DeadliftKg))
      AvgTotal := sqlAvg (g.map (fun r => r.TotalKg)) })

/-! ### Database state and the calculator chain -/

/-- State of the relational store: the raw table plus every derived
table the calculators write. -/
@[ext]
structure DBState where
  records : List Record
  lifter_metrics : List LifterMetric
  max_lifts : List MaxLiftRow
  aggregated_metrics_sbd : List AggregatedSBDRow
  aggregated_metrics_bench : List AggregatedBenchRow
  weight_class_distribution : List WeightClassDistributionRow
  age_group_performance : List AgeGroupPerformanceRow
  performance_trends : List PerformanceTrendsRow

/-- A store holding only freshly loaded records, with every derived
table empty. -/
def initialState (recs : List Record) : DBState where
  records := recs
  lifter_metrics := []
  max_lifts := []
  aggregated_metrics_sbd := []
  aggregated_metrics_bench := []
  weight_class_distribution := []
  age_group_performance := []
  performance_trends := []

/-- Modelled from the spec: semantics of `INSERT OR REPLACE` keyed by a
tables natural key.  The CREATE TABLE statements for the derived tables
are not among the sources (only the records table and superseded
variants are); the spec states that derived tables are "recomputed and
upserted by natural key".  A new row replaces any existing row with the
same key; rows with other keys are kept. -/
def insertOrReplace {α κ : Type} [DecidableEq κ] (key : α → κ)
    (tbl rows : List α) : List α :=
  tbl.filter (fun t => !(rows.any (fun s => decide (key s = key t)))) ++ rows

/-- Natural key of `lifter_metrics` (spec: identity, date, equipment —
the join key every later stage uses). -/
def lmKey (m : LifterMetric) : String × String × String := (m.ID, m.Date, m.Equipment)

/-- Natural key of `records` as joined against `lifter_metrics`. -/
def recKey (r : Record) : String × String × String := (r.ID, r.Date, r.Equipment)

/-- The join predicate of `LiftDifferences.Calculate` and both
AggregatedMetrics queries: `lm.ID = r.ID AND lm.Date = r.Date AND
lm.Equipment = r.Equipment`. -/
def joinMatches (m : LifterMetric) (r : Record) : Bool :=
  m.ID == r.ID && m.Date == r.Date && m.Equipment == r.Equipment

/-- Step 1, `MaxSuccessfulAttempts.Calculate`: upsert the filtered
column copy of every record into `max_lifts`. -/
def maxSuccessfulAttemptsCalc (s : DBState) : DBState :=
  { s with max_lifts := insertOrReplace (fun m => m.ID) s.max_lifts (maxLiftsRows s.records) }

/-- Step 2, `SuccessfulAttempts.Calculate`: upsert one counters row per
record into `lifter_metrics`. -/
def successfulAttemptsCalc (s : DBState) : DBState :=
  { s with lifter_metrics :=
      (insertOrReplace lmKey s.lifter_metrics (s.records.map successfulAttemptsRow)) }

/-- Effect of `LiftDifferences.Calculate` on one `lifter_metrics` row:
rows joining a record are updated from it, rows without a joining
record are untouched. -/
def ldUpdateIn (recs : List Record) (m : LifterMetric) : LifterMetric :=
  match recs.find? (fun r => joinMatches m r) with
  | some r => liftDifferencesUpdate r m
  | none => m

/-- Step 3, `LiftDifferences.Calculate`: update every `lifter_metrics`
row that joins a record; rows without a joining record are untouched. -/
def liftDifferencesCalc (s : DBState) : DBState :=
  { s with lifter_metrics := s.lifter_metrics.map (ldUpdateIn s.records) }

/-- The `JOIN records r ON lm.ID = r.ID AND lm.Date = r.Date AND
lm.Equipment = r.Equipment` shared by both AggregatedMetrics queries. -/
def lmJoinRecords (s : DBState) : List (LifterMetric × Record) :=
  s.lifter_metrics.filterMap (fun m =>
    (s.records.find? (fun r => joinMatches m r)).map (fun r => (m, r)))

/-- The join rows with `r.Event = SBD`, the input of `calculateSBD`. -/
def sbdJoinRows (s : DBState) : List (LifterMetric × Record) :=
  (lmJoinRecords s).filter (fun p => p.2.Event == "SBD")

/-- The join rows with `r.Event = B`, the input of `calculateBench`. -/
def benchJoinRows (s : DBState) : List (LifterMetric × Record) :=
  (lmJoinRecords s).filter (fun p => p.2.Event == "B")

/-- Step 4a, `AggregatedMetrics.calculateSBD`: group the join filtered
to `r.Event = SBD` and upsert one averages row per (Name, Equipment). -/
def aggregatedMetricsSBDCalc (s : DBState) : DBState :=
  { s with aggregated_metrics_sbd :=
      (insertOrReplace (fun a => (a.Name, a.Equipment)) s.aggregated_metrics_sbd
        ((groupKeys (sbdJoinRows s)).map (aggregatedSBDRowFor (sbdJoinRows s)))) }

/-- Step 4b, `AggregatedMetrics.calculateBench`: the same with
`r.Event = B` and the bench-only columns. -/
def aggregatedMetricsBenchCalc (s : DBState) : DBState :=
  { s with aggregated_metrics_bench :=
      (insertOrReplace (fun a => (a.Name, a.Equipment)) s.aggregated_metrics_bench
        ((groupKeys (benchJoinRows s)).map (aggregatedBenchRowFor (benchJoinRows s)))) }

/-- The store state after steps 1 to 3, the state both
AggregatedMetrics queries read. -/
def stateAfterLiftDifferences (s : DBState) : DBState :=
  liftDifferencesCalc (successfulAttemptsCalc (maxSuccessfulAttemptsCalc s))

/-- Step 4, `AggregatedMetrics.Calculate`: calculateSBD then
calculateBench. -/
def aggregatedMetricsCalc (s : DBState) : DBState :=
  aggregatedMetricsBenchCalc (aggregatedMetricsSBDCalc s)

/-- Step 5, `WeightClassDistribution.Calculate`. -/
def weightClassDistributionCalc (s : DBState) : DBState :=
  { s with weight_class_distribution :=
      (insertOrReplace (fun w => (w.WeightClass, w.Sex)) s.weight_class_distribution
        (weightClassDistributionRows s.records)) }

/-- Step 6, `AgeGroupPerformance.Calculate`. -/
def ageGroupPerformanceCalc (s : DBState) : DBState :=
  { s with age_group_performance :=
      (insertOrReplace (fun a => (a.AgeClass, a.Sex)) s.age_group_performance
        (ageGroupPerformanceRows s.records)) }

/-- Step 7, `PerformanceTrends.Calculate`. -/
def performanceTrendsCalc (s : DBState) : DBState :=
  { s with performance_trends :=
      (insertOrReplace (fun p => (p.Year, p.Sex)) s.performance_trends
        (performanceTrendsRows s.records)) }

/-- The seven calculators applied in the registration order of
`NewFeatureCalculator`. -/
def runPipeline (s : DBState) : DBState :=
  performanceTrendsCalc (ageGroupPerformanceCalc (weightClassDistributionCalc
    (aggregatedMetricsCalc (liftDifferencesCalc (successfulAttemptsCalc
      (maxSuccessfulAttemptsCalc s))))))

/-! ### The orchestrator (`FeatureCalculator.UpdateAllMetrics`) -/

/-- Error returned by a `Calculate` call (a failing `ExecContext`). -/
inductive CalcError where
  | exec (msg : String)
  deriving DecidableEq

/-- A `MetricCalculator.Calculate` against the open transaction:
it transforms the transaction state or returns an error. -/
def Calculator : Type := DBState → Except CalcError DBState

/-- A calculator whose SQL statement is total in the model. -/
def pureCalc (f : DBState → DBState) : Calculator := fun s => .ok (f s)

/-- The default registry built by `NewFeatureCalculator`, in source
order: MaxSuccessfulAttempts, SuccessfulAttempts, LiftDifferences,
AggregatedMetrics, WeightClassDistribution, AgeGroupPerformance,
PerformanceTrends. -/
def newFeatureCalculator : List Calculator :=
  [pureCalc maxSuccessfulAttemptsCalc,
   pureCalc successfulAttemptsCalc,
   pureCalc liftDifferencesCalc,
   pureCalc aggregatedMetricsCalc,
   pureCalc weightClassDistributionCalc,
   pureCalc ageGroupPerformanceCalc,
   pureCalc performanceTrendsCalc]

/-- The loop of `UpdateAllMetrics`: run each calculator in list order
against the evolving transaction; stop at the first error. -/
def runCalcs : List Calculator → DBState → Except CalcError DBState
  | [], s => .ok s
  | c :: cs, s =>
    match c s with
    | .ok s2 => runCalcs cs s2
    | .error e => .error e

/-- The `context.WithTimeout(ctx, 5*time.Minute)` bound put on the
transaction by `UpdateAllMetrics`. -/
def updateAllMetricsTimeoutMinutes : ℕ := 5

/-- `UpdateAllMetrics`: begin one transaction, run every registered
calculator in order, commit on success; `defer tx.Rollback()` discards
the transaction on any error, restoring the pre-call state.  Returns
the resulting store state and the error, if any. -/
def updateAllMetrics (calcs : List Calculator) (db : DBState) :
    DBState × Option CalcError :=
  match runCalcs calcs db with
  | .ok s2 => (s2, none)
  | .error e => (db, some e)

/-! ### Record loading (`PopulateDatabase`, `CreateDatabase`,
`SetupDatabase`) -/

/-- The insert loop of `PopulateDatabase` running inside the open
transaction: `insertFails` models `stmt.Exec` returning an error for a
row; `none` means the loop aborted. -/
def populateLoop (insertFails : Record → Bool) :
    List Record → List Record → Option (List Record)
  | txRecords, [] => some txRecords
  | txRecords, r :: rest =>
    if insertFails r then none
    else populateLoop insertFails (txRecords ++ [r]) rest

/-- `PopulateDatabase` (database.go): one transaction around the whole
batch; a failed insert returns the error and `defer tx.Rollback()`
discards every insert of the batch, otherwise the transaction commits.
Returns the resulting records table and whether the commit happened. -/
def populateDatabase (insertFails : Record → Bool) (st : List Record)
    (records : List Record) : List Record × Bool :=
  match populateLoop insertFails st records with
  | some tx => (tx, true)
  | none => (st, false)

/-- `CreateDatabase` (database.go): with `deleteExisting` the database
file is removed and fresh empty tables are created; otherwise the
existing tables are kept (`CREATE TABLE IF NOT EXISTS`). -/
def createDatabase (deleteExisting : Bool) (existing : List Record) : List Record :=
  if deleteExisting then [] else existing

/-- The load portion of `SetupDatabase` (downloader.go): it calls
`db.CreateDatabase(dbFilePath, true)` — deleting the previous store —
and then `db.PopulateDatabase` with the parsed batch.  Returns the
records table an external reader sees afterwards. -/
def setupLoadFlow (insertFails : Record → Bool) (oldStore : List Record)
    (batch : List Record) : List Record :=
  (populateDatabase insertFails (createDatabase true oldStore) batch).1

/-! ### Downloader (`DownloadFile`) -/

/-- How `DownloadFile` writes the response body. -/
inductive DownloadMethod where
  | streamToDisk
  | inMemory
  deriving DecidableEq

/-- The `2 * 1024 * 1024 * 1024` byte threshold of `DownloadFile`. -/
def downloadThreshold : ℤ := 2 * 1024 * 1024 * 1024

/-- The branch `if resp.ContentLength > 2*1024*1024*1024` of
`DownloadFile`: streaming for larger declared lengths, the in-memory
`io.ReadAll` + `os.WriteFile` path otherwise.  `ContentLength` is an
int64 and is `-1` when the length is unknown. -/
def downloadMethodFor (contentLength : ℤ) : DownloadMethod :=
  if downloadThreshold < contentLength then .streamToDisk else .inMemory

/-! ### CSV lookup (`pkg.FindCSVFile`) and the revision gate -/

/-- One entry of `os.ReadDir`. -/
structure DirEntry where
  name : String
  isDir : Bool

/-- `FindCSVFile` (pkg/utils.go): the first non-directory entry whose
name starts with `openipf` and ends with `.csv`, joined to the
directory; otherwise the "no matching CSV file found" error. -/
def findCSVFile (dataDir : String) (files : List DirEntry) : Except String String :=
  match files.find? (fun f =>
      !f.isDir && strHasPrefix f.name "openipf" && strHasSuffix f.name ".csv") with
  | some f => .ok (dataDir ++ "/" ++ f.name)
  | none => .error "no matching CSV file found"

/-- Errors surfaced by the setup flow; `network` stands for a failed
`http.Get`, the rest mirror the named error values of the sources. -/
inductive SetupError where
  | network
  | revisionNotFound
  | csvNotFound
  deriving DecidableEq

/-- The remote revision page as `getWebRevision` sees it: unreachable,
or reachable with the list-item texts found under `ul li`. -/
inductive WebPage where
  | unreachable
  | page (items : List String)

/-- The `doc.Find("ul li").Each` loop of `getWebRevision`: each item
whose text starts with `Revision:` overwrites the revision variable
with its trimmed, period-stripped suffix; the variable starts empty. -/
def findRevisionText (items : List String) : String :=
  items.foldl (fun revision text =>
    if strHasPrefix text "Revision:" then
      strTrimSuffix (strTrimSpace (strTrimPrefix text "Revision:")) "."
    else revision) ""

/-- `getWebRevision`: a failed `http.Get` propagates the transport
error; a reachable page without a marker list item (revision still
empty after the loop) is `ErrRevisionNotFound`. -/
def getWebRevision : WebPage → Except SetupError String
  | .unreachable => .error .network
  | .page items =>
    let revision := findRevisionText items
    if revision = "" then .error .revisionNotFound else .ok revision

/-- `getCSVRevision`: the revision is the last hyphen-separated part of
the basename, minus the `.csv` extension; an absent or empty revision
is `ErrRevisionNotFound`. -/
def getCSVRevision (filePath : String) : Except SetupError String :=
  let filename := baseName filePath
  let parts := strSplitOnChar '-' filename
  if 1 < parts.length then
    let revision := strTrimSuffix (parts.getLastD "") ".csv"
    if revision = "" then .error .revisionNotFound else .ok revision
  else .error .revisionNotFound

/-- `CheckRevision`: fetch the web revision, extract the CSV revision,
report whether they differ; either failure propagates. -/
def checkRevision (csvFilePath : String) (w : WebPage) : Except SetupError Bool :=
  match getWebRevision w with
  | .error e => .error e
  | .ok websiteRevision =>
    match getCSVRevision csvFilePath with
    | .error e => .error e
    | .ok csvRevision => .ok (decide (websiteRevision ≠ csvRevision))

/-- `checkForUpdate` (downloader.go): no local CSV means an update is
assumed to be needed; otherwise the revision comparison decides, and
its error propagates. -/
def checkForUpdate (dataDir : String) (files : List DirEntry) (w : WebPage) :
    Except SetupError Bool :=
  match findCSVFile dataDir files with
  | .error _ => .ok true
  | .ok csvFilePath => checkRevision csvFilePath w

/-- Outcome of the gate portion of `SetupDatabase`: return early
because the data is current, proceed into `DownloadFile`, or fail
before any download. -/
inductive SetupResult where
  | skippedUpToDate
  | downloadInvoked
  | failed (e : SetupError)
  deriving DecidableEq

/-- The gate portion of `SetupDatabase`: a `checkForUpdate` error is
returned before `DownloadFile` is ever called; `false` returns early;
`true` proceeds to the download. -/
def setupDatabaseGate (dataDir : String) (files : List DirEntry) (w : WebPage) :
    SetupResult :=
  match checkForUpdate dataDir files w with
  | .error e => .failed e
  | .ok false => .skippedUpToDate
  | .ok true => .downloadInvoked

/-- The post-extraction locate step of `SetupDatabase`: a failed
`pkg.FindCSVFile` becomes `ErrCSVNotFound`. -/
def setupLocateCSV (dataDir : String) (files : List DirEntry) : Except SetupError String :=
  match findCSVFile dataDir files with
  | .ok p => .ok p
  | .error _ => .error .csvNotFound

/-! ### Concrete fixtures used by the scenario and witness theorems -/

/-- The spec scenario row: Squat1Kg = -100, Squat2Kg = 102.5,
Squat3Kg = 0. -/
def recordSquatScenario : Record :=
  { blankRecord with Squat1Kg := -100, Squat2Kg := 102.5, Squat3Kg := 0 }

/-- A record whose first two squat attempts tie at the maximum. -/
def recordTiedSquats : Record :=
  { blankRecord with Squat1Kg := 100, Squat2Kg := 100, Squat3Kg := 50 }

/-- A bench-only record that carries squat and deadlift best columns in
the records table. -/
def recordBenchOnly : Record :=
  { blankRecord with
      ID := "b1"
      Name := "Bo"
      Event := "B"
      Equipment := "Raw"
      Best3SquatKg := 150
      Best3BenchKg := 120
      TotalKg := 120 }

/-- A full-power record of athlete Ann with every squat attempt zero
(squat percentages all 0). -/
def recordAnnFailed : Record :=
  { blankRecord with
      ID := "id1"
      Name := "Ann"
      Equipment := "Raw"
      Event := "SBD"
      Date := "2020-01-01" }

/-- A full-power record of athlete Ann whose only squat attempt is
made (its percentage is 100). -/
def recordAnnMade : Record :=
  { blankRecord with
      ID := "id2"
      Name := "Ann"
      Equipment := "Raw"
      Event := "SBD"
      Date := "2021-01-01"
      Squat1Kg := 100 }

/-- A record of the previously committed generation. -/
def recordOldGen : Record := { blankRecord with ID := "old1", Name := "Olda" }

/-- A record whose insert the store rejects in the failure scenarios. -/
def recordBadInsert : Record := { blankRecord with ID := "new1", Name := "bad" }

/-- An insert-failure oracle: the store rejects rows named bad. -/
def failsOnBad : Record → Bool := fun r => r.Name == "bad"

/-- A calculator whose SQL statement fails. -/
def failingCalculator : Calculator := fun _ => .error (.exec "boom")

/-- Exactly one of three propositions holds. -/
def exactlyOneOf (p1 p2 p3 : Prop) : Prop :=
  (p1 ∧ ¬p2 ∧ ¬p3) ∨ (¬p1 ∧ p2 ∧ ¬p3) ∨ (¬p1 ∧ ¬p2 ∧ p3)

/-- A data directory holding a correctly named extracted CSV. -/
def dirWithOpenipf : List DirEntry :=
  [{ name := "openipf-2024-01-01-rev100.csv", isDir := false }]

/-- A data directory whose CSV files lack the openipf prefix; the
downloaded archive openipf-latest.zip carries the prefix but is not a
CSV, as in the real data directory after a download. -/
def dirNoOpenipf : List DirEntry :=
  [{ name := "openipf-latest.zip", isDir := false },
   { name := "notes.txt", isDir := false },
   { name := "meet.csv", isDir := false }]

/-- A reachable revision page with no marker list item. -/
def pageNoMarker : WebPage := .page ["Updated daily.", "License: CC."]

/-- The two-record full-power history of athlete Ann: one row with all
squat attempts zero, one row with a single made squat attempt. -/
def annRecords : List Record := [recordAnnFailed, recordAnnMade]

/-- The SBD join rows of the Ann store after steps 1 to 3. -/
def annJoinRows : List (LifterMetric × Record) :=
  sbdJoinRows (stateAfterLiftDifferences (initialState annRecords))

/-- The aggregated SBD row the pipeline produces for (Ann, Raw). -/
def annRow : AggregatedSBDRow := aggregatedSBDRowFor annJoinRows ("Ann", "Raw")

/-! ### Bridge lemmas between the SQL scalar functions and Mathlib -/

theorem sqlAbs_eq_abs (x : ℚ) : sqlAbs x = |x| := by
  rw [sqlAbs]
  by_cases h : x < 0
  · simp [h, abs_of_neg h]
  · simp [h, abs_of_nonneg (not_lt.mp h)]

theorem sqlMax_eq_max (a b : ℚ) : sqlMax a b = max a b := by
  rw [sqlMax]
  by_cases h : a ≤ b
  · simp [h, max_eq_right h]
  · simp [h, max_eq_left (le_of_not_le h)]

theorem maxAbs3_eq (a b c : ℚ) : maxAbs3 a b c = max |a| (max |b| |c|) := by
  rw [maxAbs3, sqlMax_eq_max, sqlMax_eq_max, sqlAbs_eq_abs, sqlAbs_eq_abs, sqlAbs_eq_abs]

theorem maxAbs3_nonneg (a b c : ℚ) : 0 ≤ maxAbs3 a b c := by
  rw [maxAbs3_eq]
  exact le_trans (abs_nonneg a) (le_max_left _ _)

theorem abs_le_maxAbs3_left (a b c : ℚ) : |a| ≤ maxAbs3 a b c := by
  rw [maxAbs3_eq]; exact le_max_left _ _

theorem abs_le_maxAbs3_mid (a b c : ℚ) : |b| ≤ maxAbs3 a b c := by
  rw [maxAbs3_eq]; exact le_trans (le_max_left _ _) (le_max_right _ _)

theorem abs_le_maxAbs3_right (a b c : ℚ) : |c| ≤ maxAbs3 a b c := by
  rw [maxAbs3_eq]; exact le_trans (le_max_right _ _) (le_max_right _ _)

theorem maxAbs3_cases (a b c : ℚ) :
    maxAbs3 a b c = |a| ∨ maxAbs3 a b c = |b| ∨ maxAbs3 a b c = |c| := by
  rw [maxAbs3_eq]
  rcases max_choice |a| (max |b| |c|) with h | h
  · exact Or.inl h
  · rcases max_choice |b| |c| with h2 | h2
    · exact Or.inr (Or.inl (h.trans h2))
    · exact Or.inr (Or.inr (h.trans h2))

theorem percAttempt_of_pos (a1 a2 a3 x : ℚ) (h : 0 < max |a1| (max |a2| |a3|)) :
    percAttempt a1 a2 a3 x = |x| / max |a1| (max |a2| |a3|) * 100 := by
  simp only [percAttempt, maxAbs3_eq, sqlAbs_eq_abs]
  rw [if_neg (ne_of_gt h)]

theorem percAttempt_of_zero (a1 a2 a3 x : ℚ) (h : max |a1| (max |a2| |a3|) = 0) :
    percAttempt a1 a2 a3 x = 0 := by
  simp only [percAttempt, maxAbs3_eq, sqlAbs_eq_abs]
  rw [if_pos h]

theorem percAttempt_nonneg (a1 a2 a3 x : ℚ) : 0 ≤ percAttempt a1 a2 a3 x := by
  rw [percAttempt]
  split
  · exact le_refl 0
  · have hm : 0 ≤ maxAbs3 a1 a2 a3 := maxAbs3_nonneg a1 a2 a3
    rw [sqlAbs_eq_abs]
    positivity

theorem percAttempt_le_100 (a1 a2 a3 x : ℚ) (hx : |x| ≤ maxAbs3 a1 a2 a3) :
    percAttempt a1 a2 a3 x ≤ 100 := by
  rw [percAttempt]
  split
  · norm_num
  · rename_i h
    have hpos : 0 < maxAbs3 a1 a2 a3 :=
      lt_of_le_of_ne (maxAbs3_nonneg a1 a2 a3) (Ne.symm h)
    rw [sqlAbs_eq_abs]
    calc |x| / maxAbs3 a1 a2 a3 * 100 ≤ 1 * 100 := by
          apply mul_le_mul_of_nonneg_right _ (by norm_num)
          exact (div_le_one hpos).mpr hx
      _ = 100 := by norm_num

theorem percAttempt_self_eq_100 (a1 a2 a3 x : ℚ) (hx : |x| = maxAbs3 a1 a2 a3)
    (h : maxAbs3 a1 a2 a3 ≠ 0) : percAttempt a1 a2 a3 x = 100 := by
  rw [percAttempt, if_neg h, sqlAbs_eq_abs, hx, div_self h, one_mul]

/-! ### Projection lemmas for the pipeline row of one record -/

theorem lifterMetricOf_Squat1Perc (r : Record) :
    (lifterMetricOf r).Squat1Perc
      = some (percAttempt r.Squat1Kg r.Squat2Kg r.Squat3Kg r.Squat1Kg) := rfl

theorem lifterMetricOf_Squat2Perc (r : Record) :
    (lifterMetricOf r).Squat2Perc
      = some (percAttempt r.Squat1Kg r.Squat2Kg r.Squat3Kg r.Squat2Kg) := rfl

theorem lifterMetricOf_Squat3Perc (r : Record) :
    (lifterMetricOf r).Squat3Perc
      = some (percAttempt r.Squat1Kg r.Squat2Kg r.Squat3Kg r.Squat3Kg) := rfl

theorem lifterMetricOf_Bench1Perc (r : Record) :
    (lifterMetricOf r).Bench1Perc
      = some (percAttempt r.Bench1Kg r.Bench2Kg r.Bench3Kg r.Bench1Kg) := rfl

theorem lifterMetricOf_Bench2Perc (r : Record) :
    (lifterMetricOf r).Bench2Perc
      = some (percAttempt r.Bench1Kg r.Bench2Kg r.Bench3Kg r.Bench2Kg) := rfl

theorem lifterMetricOf_Bench3Perc (r : Record) :
    (lifterMetricOf r).Bench3Perc
      = some (percAttempt r.Bench1Kg r.Bench2Kg r.Bench3Kg r.Bench3Kg) := rfl

theorem lifterMetricOf_Deadlift1Perc (r : Record) :
    (lifterMetricOf r).Deadlift1Perc
      = some (percAttempt r.Deadlift1Kg r.Deadlift2Kg r.Deadlift3Kg r.Deadlift1Kg) := rfl

theorem lifterMetricOf_Deadlift2Perc (r : Record) :
    (lifterMetricOf r).Deadlift2Perc
      = some (percAttempt r.Deadlift1Kg r.Deadlift2Kg r.Deadlift3Kg r.Deadlift2Kg) := rfl

theorem lifterMetricOf_Deadlift3Perc (r : Record) :
    (lifterMetricOf r).Deadlift3Perc
      = some (percAttempt r.Deadlift1Kg r.Deadlift2Kg r.Deadlift3Kg r.Deadlift3Kg) := rfl

theorem lifterMetricOf_SuccessfulSquatAttempts (r : Record) :
    (lifterMetricOf r).SuccessfulSquatAttempts
      = countPos r.Squat1Kg r.Squat2Kg r.Squat3Kg := rfl

/-- C1: for every record, LiftDifferences computes, for each lift and
attempt k, percentage_k = abs(attempt_k) divided by the maximum of the
three absolute attempts times 100 when that maximum is positive, and 0
for every k when the maximum is 0; on the scenario row with squat
attempts -100, 102.5, 0 the second percentage is 100, the third is 0,
one squat attempt counts as successful, and the first percentage is
approximately 97.56. -/
theorem c1_lift_percentages :
    (∀ r : Record,
      (0 < max |r.Squat1Kg| (max |r.Squat2Kg| |r.Squat3Kg|) →
        (lifterMetricOf r).Squat1Perc
            = some (|r.Squat1Kg| / max |r.Squat1Kg| (max |r.Squat2Kg| |r.Squat3Kg|) * 100) ∧
        (lifterMetricOf r).Squat2Perc
            = some (|r.Squat2Kg| / max |r.Squat1Kg| (max |r.Squat2Kg| |r.Squat3Kg|) * 100) ∧
        (lifterMetricOf r).Squat3Perc
            = some (|r.Squat3Kg| / max |r.Squat1Kg| (max |r.Squat2Kg| |r.Squat3Kg|) * 100)) ∧
      (max |r.Squat1Kg| (max |r.Squat2Kg| |r.Squat3Kg|) = 0 →
        (lifterMetricOf r).Squat1Perc = some 0 ∧
        (lifterMetricOf r).Squat2Perc = some 0 ∧
        (lifterMetricOf r).Squat3Perc = some 0) ∧
      (0 < max |r.Bench1Kg| (max |r.Bench2Kg| |r.Bench3Kg|) →
        (lifterMetricOf r).Bench1Perc
            = some (|r.Bench1Kg| / max |r.Bench1Kg| (max |r.Bench2Kg| |r.Bench3Kg|) * 100) ∧
        (lifterMetricOf r).Bench2Perc
            = some (|r.Bench2Kg| / max |r.Bench1Kg| (max |r.Bench2Kg| |r.Bench3Kg|) * 100) ∧
        (lifterMetricOf r).Bench3Perc
            = some (|r.Bench3Kg| / max |r.Bench1Kg| (max |r.Bench2Kg| |r.Bench3Kg|) * 100)) ∧
      (max |r.Bench1Kg| (max |r.Bench2Kg| |r.Bench3Kg|) = 0 →
        (lifterMetricOf r).Bench1Perc = some 0 ∧
        (lifterMetricOf r).Bench2Perc = some 0 ∧
        (lifterMetricOf r).Bench3Perc = some 0) ∧
      (0 < max |r.Deadlift1Kg| (max |r.Deadlift2Kg| |r.Deadlift3Kg|) →
        (lifterMetricOf r).Deadlift1Perc
            = some (|r.Deadlift1Kg| / max |r.Deadlift1Kg| (max |r.Deadlift2Kg| |r.Deadlift3Kg|) * 100) ∧
        (lifterMetricOf r).Deadlift2Perc
            = some (|r.Deadlift2Kg| / max |r.Deadlift1Kg| (max |r.Deadlift2Kg| |r.Deadlift3Kg|) * 100) ∧
        (lifterMetricOf r).Deadlift3Perc
            = some (|r.Deadlift3Kg| / max |r.Deadlift1Kg| (max |r.Deadlift2Kg| |r.Deadlift3Kg|) * 100)) ∧
      (max |r.Deadlift1Kg| (max |r.Deadlift2Kg| |r.Deadlift3Kg|) = 0 →
        (lifterMetricOf r).Deadlift1Perc = some 0 ∧
        (lifterMetricOf r).Deadlift2Perc = some 0 ∧
        (lifterMetricOf r).Deadlift3Perc = some 0)) ∧
    ((lifterMetricOf recordSquatScenario).Squat2Perc = some 100 ∧
     (lifterMetricOf recordSquatScenario).Squat3Perc = some 0 ∧
     (lifterMetricOf recordSquatScenario).SuccessfulSquatAttempts = 1 ∧
     ∃ q : ℚ, (lifterMetricOf recordSquatScenario).Squat1Perc = some q ∧
       |q - 97.56| < 1 / 100) := by
  constructor
  · intro r
    refine ⟨fun h => ⟨?_, ?_, ?_⟩, fun h => ⟨?_, ?_, ?_⟩,
        fun h => ⟨?_, ?_, ?_⟩, fun h => ⟨?_, ?_, ?_⟩,
        fun h => ⟨?_, ?_, ?_⟩, fun h => ⟨?_, ?_, ?_⟩⟩
    · rw [lifterMetricOf_Squat1Perc, percAttempt_of_pos _ _ _ _ h]
    · rw [lifterMetricOf_Squat2Perc, percAttempt_of_pos _ _ _ _ h]
    · rw [lifterMetricOf_Squat3Perc, percAttempt_of_pos _ _ _ _ h]
    · rw [lifterMetricOf_Squat1Perc, percAttempt_of_zero _ _ _ _ h]
    · rw [lifterMetricOf_Squat2Perc, percAttempt_of_zero _ _ _ _ h]
    · rw [lifterMetricOf_Squat3Perc, percAttempt_of_zero _ _ _ _ h]
    · rw [lifterMetricOf_Bench1Perc, percAttempt_of_pos _ _ _ _ h]
    · rw [lifterMetricOf_Bench2Perc, percAttempt_of_pos _ _ _ _ h]
    · rw [lifterMetricOf_Bench3Perc, percAttempt_of_pos _ _ _ _ h]
    · rw [lifterMetricOf_Bench1Perc, percAttempt_of_zero _ _ _ _ h]
    · rw [lifterMetricOf_Bench2Perc, percAttempt_of_zero _ _ _ _ h]
    · rw [lifterMetricOf_Bench3Perc, percAttempt_of_zero _ _ _ _ h]
    · rw [lifterMetricOf_Deadlift1Perc, percAttempt_of_pos _ _ _ _ h]
    · rw [lifterMetricOf_Deadlift2Perc, percAttempt_of_pos _ _ _ _ h]
    · rw [lifterMetricOf_Deadlift3Perc, percAttempt_of_pos _ _ _ _ h]
    · rw [lifterMetricOf_Deadlift1Perc, percAttempt_of_zero _ _ _ _ h]
    · rw [lifterMetricOf_Deadlift2Perc, percAttempt_of_zero _ _ _ _ h]
    · rw [lifterMetricOf_Deadlift3Perc, percAttempt_of_zero _ _ _ _ h]
  · refine ⟨?_, ?_, ?_, ⟨4000 / 41, ?_, ?_⟩⟩
    · rw [lifterMetricOf_Squat2Perc]
      norm_num [recordSquatScenario, blankRecord, percAttempt, maxAbs3, sqlAbs, sqlMax]
    · rw [lifterMetricOf_Squat3Perc]
      norm_num [recordSquatScenario, blankRecord, percAttempt, maxAbs3, sqlAbs, sqlMax]
    · rw [lifterMetricOf_SuccessfulSquatAttempts]
      norm_num [recordSquatScenario, blankRecord, countPos]
    · rw [lifterMetricOf_Squat1Perc]
      norm_num [recordSquatScenario, blankRecord, percAttempt, maxAbs3, sqlAbs, sqlMax]
    · rw [show (4000 / 41 : ℚ) - 97.56 = 4 / 4100 by norm_num]
      rw [abs_of_pos (by norm_num)]
      norm_num

/-- Witness for C1 at the scenario record: the positivity hypothesis
holds and the theorem yields the second-attempt percentage formula. -/
theorem c1_lift_percentages_witness :
    0 < max |recordSquatScenario.Squat1Kg|
        (max |recordSquatScenario.Squat2Kg| |recordSquatScenario.Squat3Kg|) ∧
    (lifterMetricOf recordSquatScenario).Squat2Perc
      = some (|recordSquatScenario.Squat2Kg| /
          max |recordSquatScenario.Squat1Kg|
            (max |recordSquatScenario.Squat2Kg| |recordSquatScenario.Squat3Kg|) * 100) := by
  have h : 0 < max |recordSquatScenario.Squat1Kg|
      (max |recordSquatScenario.Squat2Kg| |recordSquatScenario.Squat3Kg|) := by
    norm_num [recordSquatScenario, blankRecord]
  exact ⟨h, ((c1_lift_percentages.1 recordSquatScenario).1 h).2.1⟩

/-- C10: DownloadFile streams to disk exactly when the declared
ContentLength strictly exceeds 2*1024*1024*1024 bytes; a declared
length of exactly 2 GiB and the unknown-length value -1 are both
buffered fully in memory. -/
theorem c10_download_method :
    downloadThreshold = 2147483648 ∧
    (∀ contentLength : ℤ,
      downloadMethodFor contentLength = .streamToDisk ↔ downloadThreshold < contentLength) ∧
    downloadMethodFor downloadThreshold = .inMemory ∧
    downloadMethodFor (-1) = .inMemory := by
  refine ⟨by norm_num [downloadThreshold], fun contentLength => ?_, ?_, ?_⟩
  · rw [downloadMethodFor]
    constructor
    · intro h
      by_contra hc
      rw [if_neg hc] at h
      exact DownloadMethod.noConfusion h
    · intro h
      rw [if_pos h]
  · rw [downloadMethodFor, if_neg (lt_irrefl _)]
  · rw [downloadMethodFor, if_neg (by norm_num [downloadThreshold])]

/-- Witness for C10: one byte past the threshold streams to disk. -/
theorem c10_download_method_witness :
    downloadMethodFor 2147483649 = .streamToDisk :=
  (c10_download_method.2.1 2147483649).mpr (by norm_num [downloadThreshold])

/-- C9: the CSV lookup returns a file only if its basename starts with
openipf and ends with .csv; a directory whose CSV files (the entries
named with the .csv suffix) all lack the openipf prefix — whatever
other entries, such as the downloaded archive, are present — yields an
error, which the revision gate turns into "update required" and the
post-extraction locate step turns into the csv-not-found failure. -/
theorem c9_findCSVFile_prefix :
    (∀ (dataDir : String) (files : List DirEntry) (p : String),
      findCSVFile dataDir files = .ok p →
      ∃ f, f ∈ files ∧ f.isDir = false ∧ strHasPrefix f.name "openipf" = true ∧
        strHasSuffix f.name ".csv" = true ∧ p = dataDir ++ "/" ++ f.name) ∧
    (∀ (dataDir : String) (files : List DirEntry),
      (∀ f ∈ files, strHasSuffix f.name ".csv" = true →
        strHasPrefix f.name "openipf" = false) →
      findCSVFile dataDir files = .error "no matching CSV file found" ∧
      (∀ w : WebPage, checkForUpdate dataDir files w = .ok true) ∧
      setupLocateCSV dataDir files = .error .csvNotFound) := by
  constructor
  · intro dataDir files p h
    rw [findCSVFile] at h
    cases hf : files.find? (fun f =>
        !f.isDir && strHasPrefix f.name "openipf" && strHasSuffix f.name ".csv") with
    | none => rw [hf] at h; exact Except.noConfusion h
    | some f =>
      rw [hf] at h
      have hmem := List.mem_of_find?_eq_some hf
      have hpred := List.find?_some hf
      simp only [Bool.and_eq_true, Bool.not_eq_true'] at hpred
      refine ⟨f, hmem, hpred.1.1, hpred.1.2, hpred.2, ?_⟩
      cases h
      rfl
  · intro dataDir files hall
    have hnone : files.find? (fun f =>
        !f.isDir && strHasPrefix f.name "openipf" && strHasSuffix f.name ".csv") = none := by
      rw [List.find?_eq_none]
      intro f hf
      cases hs : strHasSuffix f.name ".csv" with
      | false => simp [hs]
      | true => simp [hs, hall f hf hs]
    refine ⟨?_, fun w => ?_, ?_⟩
    · rw [findCSVFile, hnone]
    · rw [checkForUpdate, findCSVFile, hnone]
    · rw [setupLocateCSV, findCSVFile, hnone]

/-- Witness for C9 at a directory holding the prefixed non-CSV archive
openipf-latest.zip next to meet.csv and notes.txt: the lookup errors,
the gate reports update required, the locate step fails with
csv-not-found. -/
theorem c9_findCSVFile_prefix_witness :
    findCSVFile "data" dirNoOpenipf = .error "no matching CSV file found" ∧
    checkForUpdate "data" dirNoOpenipf pageNoMarker = .ok true ∧
    setupLocateCSV "data" dirNoOpenipf = .error .csvNotFound := by
  have h := c9_findCSVFile_prefix.2 "data" dirNoOpenipf (by decide)
  exact ⟨h.1, h.2.1 pageNoMarker, h.2.2⟩

theorem percAttempt_exists_100 (a1 a2 a3 : ℚ) (h : 0 < max |a1| (max |a2| |a3|)) :
    percAttempt a1 a2 a3 a1 = 100 ∨ percAttempt a1 a2 a3 a2 = 100 ∨
      percAttempt a1 a2 a3 a3 = 100 := by
  have hne : maxAbs3 a1 a2 a3 ≠ 0 := by rw [maxAbs3_eq]; exact ne_of_gt h
  rcases maxAbs3_cases a1 a2 a3 with hc | hc | hc
  · exact Or.inl (percAttempt_self_eq_100 _ _ _ _ hc.symm hne)
  · exact Or.inr (Or.inl (percAttempt_self_eq_100 _ _ _ _ hc.symm hne))
  · exact Or.inr (Or.inr (percAttempt_self_eq_100 _ _ _ _ hc.symm hne))

/-- C5 counterexample: on a record whose first two squat attempts tie
at the maximum, two attempts attain percentage 100 even though the
attempts are not all zero, refuting that exactly one attempt per lift
attains 100. -/
theorem c5_counterexample :
    ¬ exactlyOneOf ((lifterMetricOf recordTiedSquats).Squat1Perc = some 100)
        ((lifterMetricOf recordTiedSquats).Squat2Perc = some 100)
        ((lifterMetricOf recordTiedSquats).Squat3Perc = some 100) ∧
    ¬ (recordTiedSquats.Squat1Kg = 0 ∧ recordTiedSquats.Squat2Kg = 0 ∧
        recordTiedSquats.Squat3Kg = 0) := by
  have h1 : (lifterMetricOf recordTiedSquats).Squat1Perc = some 100 := by
    rw [lifterMetricOf_Squat1Perc]
    norm_num [recordTiedSquats, blankRecord, percAttempt, maxAbs3, sqlAbs, sqlMax]
  have h2 : (lifterMetricOf recordTiedSquats).Squat2Perc = some 100 := by
    rw [lifterMetricOf_Squat2Perc]
    norm_num [recordTiedSquats, blankRecord, percAttempt, maxAbs3, sqlAbs, sqlMax]
  constructor
  · intro hc
    rcases hc with ⟨_, hn2, _⟩ | ⟨hn1, _, _⟩ | ⟨hn1, _, _⟩
    · exact hn2 h2
    · exact hn1 h1
    · exact hn1 h1
  · intro hc
    have := hc.1
    norm_num [recordTiedSquats, blankRecord] at this

/-- C5 amended: all nine percentages lie in [0,100]; for each lift at
least one attempt attains 100 when the maximum absolute attempt is
positive (several may, on ties), and all three are 0 when it is 0. -/
theorem c5_amended (r : Record) :
    ((∃ q, (lifterMetricOf r).Squat1Perc = some q ∧ 0 ≤ q ∧ q ≤ 100) ∧
     (∃ q, (lifterMetricOf r).Squat2Perc = some q ∧ 0 ≤ q ∧ q ≤ 100) ∧
     (∃ q, (lifterMetricOf r).Squat3Perc = some q ∧ 0 ≤ q ∧ q ≤ 100) ∧
     (∃ q, (lifterMetricOf r).Bench1Perc = some q ∧ 0 ≤ q ∧ q ≤ 100) ∧
     (∃ q, (lifterMetricOf r).Bench2Perc = some q ∧ 0 ≤ q ∧ q ≤ 100) ∧
     (∃ q, (lifterMetricOf r).Bench3Perc = some q ∧ 0 ≤ q ∧ q ≤ 100) ∧
     (∃ q, (lifterMetricOf r).Deadlift1Perc = some q ∧ 0 ≤ q ∧ q ≤ 100) ∧
     (∃ q, (lifterMetricOf r).Deadlift2Perc = some q ∧ 0 ≤ q ∧ q ≤ 100) ∧
     (∃ q, (lifterMetricOf r).Deadlift3Perc = some q ∧ 0 ≤ q ∧ q ≤ 100)) ∧
    ((0 < max |r.Squat1Kg| (max |r.Squat2Kg| |r.Squat3Kg|) →
      (lifterMetricOf r).Squat1Perc = some 100 ∨
      (lifterMetricOf r).Squat2Perc = some 100 ∨
      (lifterMetricOf r).Squat3Perc = some 100) ∧
     (0 < max |r.Bench1Kg| (max |r.Bench2Kg| |r.Bench3Kg|) →
      (lifterMetricOf r).Bench1Perc = some 100 ∨
      (lifterMetricOf r).Bench2Perc = some 100 ∨
      (lifterMetricOf r).Bench3Perc = some 100) ∧
     (0 < max |r.Deadlift1Kg| (max |r.Deadlift2Kg| |r.Deadlift3Kg|) →
      (lifterMetricOf r).Deadlift1Perc = some 100 ∨
      (lifterMetricOf r).Deadlift2Perc = some 100 ∨
      (lifterMetricOf r).Deadlift3Perc = some 100)) ∧
    ((max |r.Squat1Kg| (max |r.Squat2Kg| |r.Squat3Kg|) = 0 →
      (lifterMetricOf r).Squat1Perc = some 0 ∧
      (lifterMetricOf r).Squat2Perc = some 0 ∧
      (lifterMetricOf r).Squat3Perc = some 0) ∧
     (max |r.Bench1Kg| (max |r.Bench2Kg| |r.Bench3Kg|) = 0 →
      (lifterMetricOf r).Bench1Perc = some 0 ∧
      (lifterMetricOf r).Bench2Perc = some 0 ∧
      (lifterMetricOf r).Bench3Perc = some 0) ∧
     (max |r.Deadlift1Kg| (max |r.Deadlift2Kg| |r.Deadlift3Kg|) = 0 →
      (lifterMetricOf r).Deadlift1Perc = some 0 ∧
      (lifterMetricOf r).Deadlift2Perc = some 0 ∧
      (lifterMetricOf r).Deadlift3Perc = some 0)) := by
  refine ⟨⟨?_, ?_, ?_, ?_, ?_, ?_, ?_, ?_, ?_⟩, ⟨?_, ?_, ?_⟩, ⟨?_, ?_, ?_⟩⟩
  · exact ⟨_, lifterMetricOf_Squat1Perc r, percAttempt_nonneg _ _ _ _,
      percAttempt_le_100 _ _ _ _ (abs_le_maxAbs3_left _ _ _)⟩
  · exact ⟨_, lifterMetricOf_Squat2Perc r, percAttempt_nonneg _ _ _ _,
      percAttempt_le_100 _ _ _ _ (abs_le_maxAbs3_mid _ _ _)⟩
  · exact ⟨_, lifterMetricOf_Squat3Perc r, percAttempt_nonneg _ _ _ _,
      percAttempt_le_100 _ _ _ _ (abs_le_maxAbs3_right _ _ _)⟩
  · exact ⟨_, lifterMetricOf_Bench1Perc r, percAttempt_nonneg _ _ _ _,
      percAttempt_le_100 _ _ _ _ (abs_le_maxAbs3_left _ _ _)⟩
  · exact ⟨_, lifterMetricOf_Bench2Perc r, percAttempt_nonneg _ _ _ _,
      percAttempt_le_100 _ _ _ _ (abs_le_maxAbs3_mid _ _ _)⟩
  · exact ⟨_, lifterMetricOf_Bench3Perc r, percAttempt_nonneg _ _ _ _,
      percAttempt_le_100 _ _ _ _ (abs_le_maxAbs3_right _ _ _)⟩
  · exact ⟨_, lifterMetricOf_Deadlift1Perc r, percAttempt_nonneg _ _ _ _,
      percAttempt_le_100 _ _ _ _ (abs_le_maxAbs3_left _ _ _)⟩
  · exact ⟨_, lifterMetricOf_Deadlift2Perc r, percAttempt_nonneg _ _ _ _,
      percAttempt_le_100 _ _ _ _ (abs_le_maxAbs3_mid _ _ _)⟩
  · exact ⟨_, lifterMetricOf_Deadlift3Perc r, percAttempt_nonneg _ _ _ _,
      percAttempt_le_100 _ _ _ _ (abs_le_maxAbs3_right _ _ _)⟩
  · intro h
    rcases percAttempt_exists_100 _ _ _ h with hc | hc | hc
    · exact Or.inl (by rw [lifterMetricOf_Squat1Perc, hc])
    · exact Or.inr (Or.inl (by rw [lifterMetricOf_Squat2Perc, hc]))
    · exact Or.inr (Or.inr (by rw [lifterMetricOf_Squat3Perc, hc]))
  · intro h
    rcases percAttempt_exists_100 _ _ _ h with hc | hc | hc
    · exact Or.inl (by rw [lifterMetricOf_Bench1Perc, hc])
    · exact Or.inr (Or.inl (by rw [lifterMetricOf_Bench2Perc, hc]))
    · exact Or.inr (Or.inr (by rw [lifterMetricOf_Bench3Perc, hc]))
  · intro h
    rcases percAttempt_exists_100 _ _ _ h with hc | hc | hc
    · exact Or.inl (by rw [lifterMetricOf_Deadlift1Perc, hc])
    · exact Or.inr (Or.inl (by rw [lifterMetricOf_Deadlift2Perc, hc]))
    · exact Or.inr (Or.inr (by rw [lifterMetricOf_Deadlift3Perc, hc]))
  · intro h
    exact ⟨by rw [lifterMetricOf_Squat1Perc, percAttempt_of_zero _ _ _ _ h],
      by rw [lifterMetricOf_Squat2Perc, percAttempt_of_zero _ _ _ _ h],
      by rw [lifterMetricOf_Squat3Perc, percAttempt_of_zero _ _ _ _ h]⟩
  · intro h
    exact ⟨by rw [lifterMetricOf_Bench1Perc, percAttempt_of_zero _ _ _ _ h],
      by rw [lifterMetricOf_Bench2Perc, percAttempt_of_zero _ _ _ _ h],
      by rw [lifterMetricOf_Bench3Perc, percAttempt_of_zero _ _ _ _ h]⟩
  · intro h
    exact ⟨by rw [lifterMetricOf_Deadlift1Perc, percAttempt_of_zero _ _ _ _ h],
      by rw [lifterMetricOf_Deadlift2Perc, percAttempt_of_zero _ _ _ _ h],
      by rw [lifterMetricOf_Deadlift3Perc, percAttempt_of_zero _ _ _ _ h]⟩

/-- Witness for C5 at the tied record: the squat maximum is positive
and some squat attempt attains 100. -/
theorem c5_amended_witness :
    0 < max |recordTiedSquats.Squat1Kg|
        (max |recordTiedSquats.Squat2Kg| |recordTiedSquats.Squat3Kg|) ∧
    ((lifterMetricOf recordTiedSquats).Squat1Perc = some 100 ∨
     (lifterMetricOf recordTiedSquats).Squat2Perc = some 100 ∨
     (lifterMetricOf recordTiedSquats).Squat3Perc = some 100) := by
  have h : 0 < max |recordTiedSquats.Squat1Kg|
      (max |recordTiedSquats.Squat2Kg| |recordTiedSquats.Squat3Kg|) := by
    norm_num [recordTiedSquats, blankRecord]
  exact ⟨h, (c5_amended recordTiedSquats).2.1.1 h⟩

/-- C6 counterexample: for a bench-only record the calculator emits a
row whose squat and deadlift best columns carry the record values (set,
not NULL), while the claimed branching behaviour would leave them
unset. -/
theorem c6_counterexample :
    recordBenchOnly.Event = "B" ∧
    maxLiftsRows [recordBenchOnly] = [maxLiftsRow recordBenchOnly] ∧
    (maxLiftsRow recordBenchOnly).Best3SquatKg = some 150 ∧
    (maxLiftsRow recordBenchOnly).Best3SquatKg ≠ none ∧
    (maxLiftsRow recordBenchOnly).Best3DeadliftKg = some 0 ∧
    (maxLiftsRowClaimed recordBenchOnly).Best3SquatKg = none ∧
    (maxLiftsRowClaimed recordBenchOnly).Best3DeadliftKg = none := by
  refine ⟨rfl, ?_, rfl, by simp [maxLiftsRow], rfl, rfl, rfl⟩
  rfl

/-- C6 amended: MaxLifts writes one row per record with event SBD or
B, copying the best-lift columns and the total unconditionally; there
is no event-type branch, so bench-only rows also carry their record
values (never NULL) in the squat and deadlift columns. -/
theorem c6_amended :
    (∀ (recs : List Record) (r : Record), r ∈ recs →
      r.Event = "SBD" ∨ r.Event = "B" →
      maxLiftsRow r ∈ maxLiftsRows recs ∧
      (maxLiftsRow r).Best3SquatKg = some r.Best3SquatKg ∧
      (maxLiftsRow r).Best3BenchKg = some r.Best3BenchKg ∧
      (maxLiftsRow r).Best3DeadliftKg = some r.Best3DeadliftKg ∧
      (maxLiftsRow r).TotalKg = some r.TotalKg) ∧
    (∀ (recs : List Record) (m : MaxLiftRow), m ∈ maxLiftsRows recs →
      (m.Event = "SBD" ∨ m.Event = "B") ∧
      m.Best3SquatKg ≠ none ∧ m.Best3DeadliftKg ≠ none) := by
  constructor
  · intro recs r hmem hev
    refine ⟨?_, rfl, rfl, rfl, rfl⟩
    apply List.mem_map_of_mem maxLiftsRow
    apply List.mem_filter.mpr
    refine ⟨hmem, ?_⟩
    rw [maxLiftsEventFilter]
    rcases hev with h | h <;> rw [h] <;> decide
  · intro recs m hm
    rw [maxLiftsRows] at hm
    rcases List.mem_map.mp hm with ⟨r, hr, hrm⟩
    have hpred := (List.mem_filter.mp hr).2
    rw [maxLiftsEventFilter, Bool.or_eq_true] at hpred
    subst hrm
    constructor
    · rcases hpred with h | h
      · exact Or.inl (by exact eq_of_beq h)
      · exact Or.inr (by exact eq_of_beq h)
    · exact ⟨by simp [maxLiftsRow], by simp [maxLiftsRow]⟩

/-- Witness for C6 at the bench-only record: its row is produced and
its squat column is populated with the record value. -/
theorem c6_amended_witness :
    maxLiftsRow recordBenchOnly ∈ maxLiftsRows [recordBenchOnly] ∧
    (maxLiftsRow recordBenchOnly).Best3SquatKg = some recordBenchOnly.Best3SquatKg :=
  have h := c6_amended.1 [recordBenchOnly] recordBenchOnly (List.mem_singleton.mpr rfl)
    (Or.inr rfl)
  ⟨h.1, h.2.1⟩

/-- C2: UpdateAllMetrics wraps one transaction with a 5-minute
deadline, runs the registry MaxLifts, SuccessfulAttempts,
LiftDifferences, AggregatedMetrics, WeightClassDistribution,
AgeGroupPerformance, PerformanceTrends in that order, commits exactly
when every calculator succeeds, and on any error leaves the store in
its pre-transaction state. -/
theorem c2_updateAllMetrics :
    updateAllMetricsTimeoutMinutes = 5 ∧
    (∀ s : DBState, updateAllMetrics newFeatureCalculator s = (runPipeline s, none)) ∧
    (∀ (calcs : List Calculator) (db s2 : DBState),
      runCalcs calcs db = .ok s2 → updateAllMetrics calcs db = (s2, none)) ∧
    (∀ (calcs : List Calculator) (db : DBState) (e : CalcError),
      runCalcs calcs db = .error e → updateAllMetrics calcs db = (db, some e)) ∧
    (∀ (calcs : List Calculator) (db : DBState),
      (updateAllMetrics calcs db).2 = none ↔ ∃ s2, runCalcs calcs db = .ok s2) := by
  refine ⟨rfl, fun s => rfl, fun calcs db s2 h => ?_, fun calcs db e h => ?_,
    fun calcs db => ?_⟩
  · simp [updateAllMetrics, h]
  · simp [updateAllMetrics, h]
  · cases hr : runCalcs calcs db <;> simp [updateAllMetrics, hr]

/-- Witness for C2: a failing calculator rolls the store back to its
input state and reports the error. -/
theorem c2_updateAllMetrics_witness :
    updateAllMetrics [failingCalculator] (initialState [])
      = (initialState [], some (.exec "boom")) :=
  c2_updateAllMetrics.2.2.2.1 [failingCalculator] (initialState []) (.exec "boom") rfl

theorem populateLoop_ok (insertFails : Record → Bool) :
    ∀ (batch st tx : List Record),
      populateLoop insertFails st batch = some tx → tx = st ++ batch := by
  intro batch
  induction batch with
  | nil =>
    intro st tx h
    simp only [populateLoop, Option.some.injEq] at h
    simp [h.symm]
  | cons r rest ih =>
    intro st tx h
    by_cases hf : insertFails r
    · simp [populateLoop, hf] at h
    · simp only [populateLoop, hf, Bool.false_eq_true, if_false] at h
      have := ih (st ++ [r]) tx h
      rw [this]
      simp

/-- C3 counterexample: with the previous generation present, a batch
whose insert fails leaves the store empty — the generation that
CreateDatabase(deleteExisting = true) removed is not preserved and is
not served afterwards. -/
theorem c3_counterexample :
    setupLoadFlow failsOnBad [recordOldGen] [recordBadInsert] = [] ∧
    setupLoadFlow failsOnBad [recordOldGen] [recordBadInsert] ≠ [recordOldGen] ∧
    (populateDatabase failsOnBad [recordOldGen] [recordBadInsert]).2 = false := by
  refine ⟨rfl, ?_, rfl⟩
  intro h
  exact List.noConfusion h.symm

/-- C3 amended: PopulateDatabase is transactional — a committed run
appends exactly the batch, a failed insert rolls the store back to the
state at the start of the call — but SetupDatabase deletes the
existing store before loading, so after a failed batch the visible
records table is empty rather than the previous generation. -/
theorem c3_amended :
    (∀ (fails : Record → Bool) (st batch : List Record),
      (populateDatabase fails st batch).2 = true →
      (populateDatabase fails st batch).1 = st ++ batch) ∧
    (∀ (fails : Record → Bool) (st batch : List Record),
      (populateDatabase fails st batch).2 = false →
      (populateDatabase fails st batch).1 = st) ∧
    (∀ (fails : Record → Bool) (oldStore batch : List Record),
      (populateDatabase fails (createDatabase true oldStore) batch).2 = false →
      setupLoadFlow fails oldStore batch = []) := by
  have hfail : ∀ (fails : Record → Bool) (st batch : List Record),
      (populateDatabase fails st batch).2 = false →
      (populateDatabase fails st batch).1 = st := by
    intro fails st batch h
    rw [populateDatabase] at h ⊢
    cases hl : populateLoop fails st batch with
    | some tx => rw [hl] at h; simp at h
    | none => rfl
  refine ⟨?_, hfail, ?_⟩
  · intro fails st batch h
    rw [populateDatabase] at h ⊢
    cases hl : populateLoop fails st batch with
    | some tx => exact populateLoop_ok fails batch st tx hl
    | none => rw [hl] at h; simp at h
  · intro fails oldStore batch h
    rw [setupLoadFlow]
    have := hfail fails (createDatabase true oldStore) batch h
    rw [this]
    rfl

/-- Witness for C3: the failed concrete batch leaves PopulateDatabase
input state untouched (the rollback itself works). -/
theorem c3_amended_witness :
    (populateDatabase failsOnBad [recordOldGen] [recordBadInsert]).1 = [recordOldGen] :=
  c3_amended.2.1 failsOnBad [recordOldGen] [recordBadInsert] rfl

theorem findRevisionText_of_no_marker (items : List String)
    (h : ∀ t ∈ items, strHasPrefix t "Revision:" = false) :
    findRevisionText items = "" := by
  rw [findRevisionText]
  induction items with
  | nil => rfl
  | cons t rest ih =>
    rw [List.foldl_cons, if_neg (by simp [h t (List.mem_cons_self t rest)])]
    exact ih (fun x hx => h x (List.mem_cons_of_mem t hx))

/-- C7 counterexample: with a local CSV present and the remote page
unreachable, the run fails with the network error of the failed fetch,
not with the revision-not-found error the claim names. -/
theorem c7_counterexample :
    setupDatabaseGate "data" dirWithOpenipf .unreachable = .failed .network ∧
    SetupError.network ≠ SetupError.revisionNotFound ∧
    setupDatabaseGate "data" dirWithOpenipf .unreachable ≠ .failed .revisionNotFound := by
  exact ⟨rfl, by decide, by decide⟩

/-- C7 amended: a missing local CSV fail-opens into "update required";
with a local CSV present, an unreachable page fails the run with the
propagated network error and a reachable page without a marker item
fails it with the revision-not-found error; a failed gate never
reports up-to-date and never reaches the Downloader. -/
theorem c7_amended :
    (∀ (dataDir : String) (files : List DirEntry) (w : WebPage) (msg : String),
      findCSVFile dataDir files = .error msg →
      setupDatabaseGate dataDir files w = .downloadInvoked) ∧
    (∀ (dataDir : String) (files : List DirEntry) (p : String),
      findCSVFile dataDir files = .ok p →
      setupDatabaseGate dataDir files .unreachable = .failed .network) ∧
    (∀ (dataDir : String) (files : List DirEntry) (p : String) (items : List String),
      findCSVFile dataDir files = .ok p →
      (∀ t ∈ items, strHasPrefix t "Revision:" = false) →
      setupDatabaseGate dataDir files (.page items) = .failed .revisionNotFound) ∧
    (∀ (dataDir : String) (files : List DirEntry) (w : WebPage) (e : SetupError),
      setupDatabaseGate dataDir files w = .failed e →
      setupDatabaseGate dataDir files w ≠ .skippedUpToDate ∧
      setupDatabaseGate dataDir files w ≠ .downloadInvoked) := by
  refine ⟨fun dataDir files w msg h => ?_, fun dataDir files p h => ?_,
    fun dataDir files p items h hm => ?_, fun dataDir files w e h => ?_⟩
  · rw [setupDatabaseGate, checkForUpdate, h]
  · simp [setupDatabaseGate, checkForUpdate, h, checkRevision, getWebRevision]
  · have hrev := findRevisionText_of_no_marker items hm
    simp [setupDatabaseGate, checkForUpdate, h, checkRevision, getWebRevision, hrev]
  · rw [h]
    exact ⟨by simp, by simp⟩

/-- Witness for C7: the concrete directory with a valid CSV and the
concrete marker-free page produce the revision-not-found failure. -/
theorem c7_amended_witness :
    setupDatabaseGate "data" dirWithOpenipf pageNoMarker = .failed .revisionNotFound :=
  c7_amended.2.2.1 "data" dirWithOpenipf "data/openipf-2024-01-01-rev100.csv"
    ["Updated daily.", "License: CC."] rfl (by decide)

/-! ### Idempotence of the calculator chain (C8) -/

theorem filter_map_comm {α β : Type} (f : α → β) (q : β → Bool) (l : List α) :
    (l.map f).filter q = (l.filter (fun a => q (f a))).map f := by
  induction l with
  | nil => rfl
  | cons a t ih =>
    simp only [List.map_cons, List.filter_cons]
    cases h : q (f a) <;> simp [h, ih]

theorem insertOrReplace_filter_self {α κ : Type} [DecidableEq κ] (key : α → κ)
    (rows : List α) :
    rows.filter (fun t => !(rows.any (fun s => decide (key s = key t)))) = [] := by
  rw [List.filter_eq_nil_iff]
  intro a ha
  have hany : rows.any (fun s => decide (key s = key a)) = true :=
    List.any_eq_true.mpr ⟨a, ha, by simp⟩
  simp [hany]

theorem insertOrReplace_idem {α κ : Type} [DecidableEq κ] (key : α → κ)
    (tbl rows : List α) :
    insertOrReplace key (insertOrReplace key tbl rows) rows
      = insertOrReplace key tbl rows := by
  simp only [insertOrReplace, List.filter_append]
  rw [List.filter_eq_self.mpr (fun a ha => (List.mem_filter.mp ha).2)]
  rw [insertOrReplace_filter_self key rows]
  simp

theorem upsert_map_idem {α κ : Type} [DecidableEq κ] (key : α → κ) (u : α → α)
    (hk : ∀ a, key (u a) = key a) (hu : ∀ a, u (u a) = u a) (T S : List α) :
    ((insertOrReplace key ((insertOrReplace key T S).map u) S).map u)
      = (insertOrReplace key T S).map u := by
  have hmapfilter : ∀ l : List α,
      (l.map u).filter (fun t => !(S.any (fun s => decide (key s = key t))))
        = (l.filter (fun t => !(S.any (fun s => decide (key s = key t))))).map u := by
    intro l
    rw [filter_map_comm]
    congr 1
    apply List.filter_congr
    intro a _
    simp [hk]
  have hmapmap : ∀ l : List α, (l.map u).map u = l.map u := by
    intro l
    rw [List.map_map]
    exact List.map_congr_left (fun a _ => by simp only [Function.comp_apply, hu])
  simp only [insertOrReplace, List.map_append, List.filter_append, hmapfilter]
  rw [List.filter_eq_self.mpr (fun a ha => (List.mem_filter.mp ha).2)]
  rw [insertOrReplace_filter_self key S]
  simp only [List.map_nil, List.nil_append, List.map_append, hmapmap,
    List.append_nil]

theorem lmKey_ldUpdateIn (recs : List Record) (m : LifterMetric) :
    lmKey (ldUpdateIn recs m) = lmKey m := by
  rw [ldUpdateIn]
  split <;> rfl

theorem ldUpdateIn_idem (recs : List Record) (m : LifterMetric) :
    ldUpdateIn recs (ldUpdateIn recs m) = ldUpdateIn recs m := by
  cases h : recs.find? (fun r => joinMatches m r) with
  | none =>
    have e1 : ldUpdateIn recs m = m := by rw [ldUpdateIn, h]
    rw [e1]
    exact e1
  | some r =>
    have e1 : ldUpdateIn recs m = liftDifferencesUpdate r m := by rw [ldUpdateIn, h]
    rw [e1, ldUpdateIn]
    rw [show recs.find? (fun x => joinMatches (liftDifferencesUpdate r m) x) = some r from h]
    rfl

theorem runPipeline_records (s : DBState) : (runPipeline s).records = s.records := rfl

theorem runPipeline_lifter_metrics (s : DBState) :
    (runPipeline s).lifter_metrics
      = (insertOrReplace lmKey s.lifter_metrics
          (s.records.map successfulAttemptsRow)).map (ldUpdateIn s.records) := rfl

theorem runPipeline_max_lifts (s : DBState) :
    (runPipeline s).max_lifts
      = insertOrReplace (fun m => m.ID) s.max_lifts (maxLiftsRows s.records) := rfl

theorem runPipeline_weight_class_distribution (s : DBState) :
    (runPipeline s).weight_class_distribution
      = insertOrReplace (fun w => (w.WeightClass, w.Sex)) s.weight_class_distribution
          (weightClassDistributionRows s.records) := rfl

theorem runPipeline_age_group_performance (s : DBState) :
    (runPipeline s).age_group_performance
      = insertOrReplace (fun a => (a.AgeClass, a.Sex)) s.age_group_performance
          (ageGroupPerformanceRows s.records) := rfl

theorem runPipeline_performance_trends (s : DBState) :
    (runPipeline s).performance_trends
      = insertOrReplace (fun p => (p.Year, p.Sex)) s.performance_trends
          (performanceTrendsRows s.records) := rfl

theorem runPipeline_aggregated_sbd (s : DBState) :
    (runPipeline s).aggregated_metrics_sbd
      = insertOrReplace (fun a => (a.Name, a.Equipment)) s.aggregated_metrics_sbd
          ((groupKeys (sbdJoinRows (stateAfterLiftDifferences s))).map
            (aggregatedSBDRowFor (sbdJoinRows (stateAfterLiftDifferences s)))) := rfl

theorem runPipeline_aggregated_bench (s : DBState) :
    (runPipeline s).aggregated_metrics_bench
      = insertOrReplace (fun a => (a.Name, a.Equipment)) s.aggregated_metrics_bench
          ((groupKeys (benchJoinRows (stateAfterLiftDifferences s))).map
            (aggregatedBenchRowFor (benchJoinRows (stateAfterLiftDifferences s)))) := rfl

theorem stateAfterLiftDifferences_records (s : DBState) :
    (stateAfterLiftDifferences s).records = s.records := rfl

theorem stateAfterLiftDifferences_lifter_metrics (s : DBState) :
    (stateAfterLiftDifferences s).lifter_metrics = (runPipeline s).lifter_metrics := rfl

theorem lmJoinRecords_eq_of (s1 s2 : DBState)
    (hlm : s1.lifter_metrics = s2.lifter_metrics) (hr : s1.records = s2.records) :
    lmJoinRecords s1 = lmJoinRecords s2 := by
  rw [lmJoinRecords, lmJoinRecords, hlm, hr]

theorem sbdJoinRows_eq_of (s1 s2 : DBState)
    (hlm : s1.lifter_metrics = s2.lifter_metrics) (hr : s1.records = s2.records) :
    sbdJoinRows s1 = sbdJoinRows s2 := by
  rw [sbdJoinRows, sbdJoinRows, lmJoinRecords_eq_of s1 s2 hlm hr]

theorem benchJoinRows_eq_of (s1 s2 : DBState)
    (hlm : s1.lifter_metrics = s2.lifter_metrics) (hr : s1.records = s2.records) :
    benchJoinRows s1 = benchJoinRows s2 := by
  rw [benchJoinRows, benchJoinRows, lmJoinRecords_eq_of s1 s2 hlm hr]

/-- C8: the calculator chain never changes the raw records table, and
running it a second time on the resulting store reproduces exactly the
same store — every derived table is upserted by its natural key, so a
re-run accumulates nothing and duplicates nothing. -/
theorem c8_pipeline_idempotent :
    ∀ s : DBState, (runPipeline s).records = s.records ∧
      runPipeline (runPipeline s) = runPipeline s := by
  intro s
  refine ⟨rfl, ?_⟩
  have hlm : (runPipeline (runPipeline s)).lifter_metrics
      = (runPipeline s).lifter_metrics := by
    rw [runPipeline_lifter_metrics (runPipeline s), runPipeline_records,
      runPipeline_lifter_metrics s]
    exact upsert_map_idem lmKey (ldUpdateIn s.records) (lmKey_ldUpdateIn s.records)
      (ldUpdateIn_idem s.records) s.lifter_metrics (s.records.map successfulAttemptsRow)
  have hjoin : sbdJoinRows (stateAfterLiftDifferences (runPipeline s))
      = sbdJoinRows (stateAfterLiftDifferences s) := by
    apply sbdJoinRows_eq_of
    · rw [stateAfterLiftDifferences_lifter_metrics,
        stateAfterLiftDifferences_lifter_metrics, hlm]
    · rfl
  have hjoinb : benchJoinRows (stateAfterLiftDifferences (runPipeline s))
      = benchJoinRows (stateAfterLiftDifferences s) := by
    apply benchJoinRows_eq_of
    · rw [stateAfterLiftDifferences_lifter_metrics,
        stateAfterLiftDifferences_lifter_metrics, hlm]
    · rfl
  apply DBState.ext
  · rw [runPipeline_records (runPipeline s), runPipeline_records s]
  · exact hlm
  · rw [runPipeline_max_lifts (runPipeline s), runPipeline_records,
      runPipeline_max_lifts s]
    exact insertOrReplace_idem _ _ _
  · rw [runPipeline_aggregated_sbd (runPipeline s), hjoin,
      runPipeline_aggregated_sbd s]
    exact insertOrReplace_idem _ _ _
  · rw [runPipeline_aggregated_bench (runPipeline s), hjoinb,
      runPipeline_aggregated_bench s]
    exact insertOrReplace_idem _ _ _
  · rw [runPipeline_weight_class_distribution (runPipeline s), runPipeline_records,
      runPipeline_weight_class_distribution s]
    exact insertOrReplace_idem _ _ _
  · rw [runPipeline_age_group_performance (runPipeline s), runPipeline_records,
      runPipeline_age_group_performance s]
    exact insertOrReplace_idem _ _ _
  · rw [runPipeline_performance_trends (runPipeline s), runPipeline_records,
      runPipeline_performance_trends s]
    exact insertOrReplace_idem _ _ _

/-! ### The pipeline join for key-distinct records (C4) -/

theorem joinMatches_iff (m : LifterMetric) (a : Record) :
    joinMatches m a = true ↔ m.ID = a.ID ∧ m.Date = a.Date ∧ m.Equipment = a.Equipment := by
  simp [joinMatches, Bool.and_eq_true, beq_iff_eq, and_assoc]

theorem find?_matching_of_nodup (m : LifterMetric) :
    ∀ (recs : List Record), (recs.map recKey).Nodup → ∀ r ∈ recs,
      m.ID = r.ID ∧ m.Date = r.Date ∧ m.Equipment = r.Equipment →
      recs.find? (fun x => joinMatches m x) = some r := by
  intro recs
  induction recs with
  | nil =>
    intro _ r hr
    cases hr
  | cons a t ih =>
    intro hnd r hr hm
    rcases List.mem_cons.mp hr with rfl | hrt
    · exact List.find?_cons_of_pos _ ((joinMatches_iff m r).mpr hm)
    · cases hj : joinMatches m a with
      | true =>
        have hk := (joinMatches_iff m a).mp hj
        have hkey : recKey a = recKey r := by
          have h1 : a.ID = r.ID := hk.1.symm.trans hm.1
          have h2 : a.Date = r.Date := hk.2.1.symm.trans hm.2.1
          have h3 : a.Equipment = r.Equipment := hk.2.2.symm.trans hm.2.2
          simp [recKey, h1, h2, h3]
        have hmem : recKey a ∈ t.map recKey := by
          rw [hkey]
          exact List.mem_map_of_mem recKey hrt
        rw [List.map_cons] at hnd
        exact absurd hmem (List.nodup_cons.mp hnd).1
      | false =>
        rw [List.find?_cons_of_neg _ (by simp [hj])]
        rw [List.map_cons] at hnd
        exact ih (List.nodup_cons.mp hnd).2 r hrt hm

theorem stateAfterLD_initial_lifter_metrics (recs : List Record)
    (hnd : (recs.map recKey).Nodup) :
    (stateAfterLiftDifferences (initialState recs)).lifter_metrics
      = recs.map lifterMetricOf := by
  have h0 : (stateAfterLiftDifferences (initialState recs)).lifter_metrics
      = (recs.map successfulAttemptsRow).map (ldUpdateIn recs) := rfl
  rw [h0, List.map_map]
  apply List.map_congr_left
  intro r hr
  show ldUpdateIn recs (successfulAttemptsRow r) = lifterMetricOf r
  rw [ldUpdateIn,
    find?_matching_of_nodup (successfulAttemptsRow r) recs hnd r hr ⟨rfl, rfl, rfl⟩]
  rfl

theorem lmJoinRecords_stateAfterLD (recs : List Record)
    (hnd : (recs.map recKey).Nodup) :
    lmJoinRecords (stateAfterLiftDifferences (initialState recs))
      = recs.map (fun r => (lifterMetricOf r, r)) := by
  rw [lmJoinRecords]
  have hrec : (stateAfterLiftDifferences (initialState recs)).records = recs := rfl
  rw [stateAfterLD_initial_lifter_metrics recs hnd, hrec, List.filterMap_map]
  have hcongr : ∀ r ∈ recs,
      ((fun m => (recs.find? (fun x => joinMatches m x)).map (fun x => (m, x)))
        ∘ lifterMetricOf) r = some (lifterMetricOf r, r) := by
    intro r hr
    show (recs.find? (fun x => joinMatches (lifterMetricOf r) x)).map
        (fun x => (lifterMetricOf r, x)) = some (lifterMetricOf r, r)
    rw [find?_matching_of_nodup (lifterMetricOf r) recs hnd r hr ⟨rfl, rfl, rfl⟩]
    rfl
  have h2 : recs.filterMap ((fun m =>
        (recs.find? (fun x => joinMatches m x)).map (fun x => (m, x))) ∘ lifterMetricOf)
      = recs.filterMap (fun r => some (lifterMetricOf r, r)) :=
    List.filterMap_congr hcongr
  rw [h2, show (fun r : Record => some (lifterMetricOf r, r))
      = some ∘ (fun r : Record => (lifterMetricOf r, r)) from rfl, List.filterMap_eq_map]

theorem sbdJoinRows_initial (recs : List Record) (hnd : (recs.map recKey).Nodup) :
    sbdJoinRows (stateAfterLiftDifferences (initialState recs))
      = (recs.filter (fun r => r.Event == "SBD")).map (fun r => (lifterMetricOf r, r)) := by
  rw [sbdJoinRows, lmJoinRecords_stateAfterLD recs hnd, filter_map_comm]

theorem benchJoinRows_initial (recs : List Record) (hnd : (recs.map recKey).Nodup) :
    benchJoinRows (stateAfterLiftDifferences (initialState recs))
      = (recs.filter (fun r => r.Event == "B")).map (fun r => (lifterMetricOf r, r)) := by
  rw [benchJoinRows, lmJoinRecords_stateAfterLD recs hnd, filter_map_comm]

theorem aggregated_sbd_initial (recs : List Record) (hnd : (recs.map recKey).Nodup) :
    (runPipeline (initialState recs)).aggregated_metrics_sbd
      = (groupKeys ((recs.filter (fun r => r.Event == "SBD")).map
          (fun r => (lifterMetricOf r, r)))).map
        (aggregatedSBDRowFor ((recs.filter (fun r => r.Event == "SBD")).map
          (fun r => (lifterMetricOf r, r)))) := by
  rw [runPipeline_aggregated_sbd, sbdJoinRows_initial recs hnd,
    show (initialState recs).aggregated_metrics_sbd = [] from rfl]
  simp [insertOrReplace]

theorem aggregated_bench_initial (recs : List Record) (hnd : (recs.map recKey).Nodup) :
    (runPipeline (initialState recs)).aggregated_metrics_bench
      = (groupKeys ((recs.filter (fun r => r.Event == "B")).map
          (fun r => (lifterMetricOf r, r)))).map
        (aggregatedBenchRowFor ((recs.filter (fun r => r.Event == "B")).map
          (fun r => (lifterMetricOf r, r)))) := by
  rw [runPipeline_aggregated_bench, benchJoinRows_initial recs hnd,
    show (initialState recs).aggregated_metrics_bench = [] from rfl]
  simp [insertOrReplace]

/-- C4 amended: per athlete the two groupings (full-power SBD and
bench-only B, each grouped by Name and Equipment) average over ALL of
the rows in the group — zero percentages from failed or absent lifts
are included in the average, and the consecutive-attempt deltas are
averaged in absolute value; there is no restriction to rows with
positive percentage. -/
theorem c4_amended :
    ∀ (recs : List Record), (recs.map recKey).Nodup →
      (∀ row ∈ (runPipeline (initialState recs)).aggregated_metrics_sbd,
        row.AvgSquat1Perc
          = sqlAvg ((recs.filter (fun r =>
              r.Event == "SBD" && (r.Name == row.Name && r.Equipment == row.Equipment))).map
              (fun r => sqlAbs (percAttempt r.Squat1Kg r.Squat2Kg r.Squat3Kg r.Squat1Kg))) ∧
        row.AvgSquat1To2Kg
          = sqlAvg ((recs.filter (fun r =>
              r.Event == "SBD" && (r.Name == row.Name && r.Equipment == row.Equipment))).map
              (fun r => sqlAbs (sqlAbs r.Squat2Kg - sqlAbs r.Squat1Kg)))) ∧
      (∀ row ∈ (runPipeline (initialState recs)).aggregated_metrics_bench,
        row.AvgBench1Perc
          = sqlAvg ((recs.filter (fun r =>
              r.Event == "B" && (r.Name == row.Name && r.Equipment == row.Equipment))).map
              (fun r => sqlAbs (percAttempt r.Bench1Kg r.Bench2Kg r.Bench3Kg r.Bench1Kg)))) := by
  intro recs hnd
  constructor
  · intro row hrow
    rw [aggregated_sbd_initial recs hnd] at hrow
    rcases List.mem_map.mp hrow with ⟨k, hk, hrk⟩
    subst hrk
    constructor
    · apply congrArg sqlAvg
      rw [groupRows, filter_map_comm, List.filter_filter, List.map_map]
      rw [List.filter_congr (fun a _ => Bool.and_comm _ _)]
      rfl
    · apply congrArg sqlAvg
      rw [groupRows, filter_map_comm, List.filter_filter, List.map_map]
      rw [List.filter_congr (fun a _ => Bool.and_comm _ _)]
      rfl
  · intro row hrow
    rw [aggregated_bench_initial recs hnd] at hrow
    rcases List.mem_map.mp hrow with ⟨k, hk, hrk⟩
    subst hrk
    apply congrArg sqlAvg
    rw [groupRows, filter_map_comm, List.filter_filter, List.map_map]
    rw [List.filter_congr (fun a _ => Bool.and_comm _ _)]
    rfl

theorem annRecords_key_nodup : (annRecords.map recKey).Nodup := by decide

theorem annRow_eq :
    annRow = aggregatedSBDRowFor ((annRecords.filter (fun r => r.Event == "SBD")).map
      (fun r => (lifterMetricOf r, r))) ("Ann", "Raw") := by
  show aggregatedSBDRowFor annJoinRows ("Ann", "Raw") = _
  rw [show annJoinRows = (annRecords.filter (fun r => r.Event == "SBD")).map
      (fun r => (lifterMetricOf r, r)) from sbdJoinRows_initial annRecords annRecords_key_nodup]

theorem annRow_mem :
    annRow ∈ (runPipeline (initialState annRecords)).aggregated_metrics_sbd := by
  have hkeys : groupKeys ((annRecords.filter (fun r => r.Event == "SBD")).map
      (fun r => (lifterMetricOf r, r))) = [("Ann", "Raw")] := by decide
  rw [annRow_eq, aggregated_sbd_initial annRecords annRecords_key_nodup, hkeys]
  simp

/-- C4 counterexample: athlete Ann has one SBD row with squat
percentage 0 and one with squat percentage 100; the calculator
averages both rows and stores 50, while the claimed positive-only
restriction would give 100. -/
theorem c4_counterexample :
    annRow ∈ (runPipeline (initialState annRecords)).aggregated_metrics_sbd ∧
    annRow.AvgSquat1Perc = 50 ∧
    sqlAvgOverPositive ((annRecords.filter (fun r =>
        r.Event == "SBD" && (r.Name == "Ann" && r.Equipment == "Raw"))).map
        (fun r => sqlAbs (percAttempt r.Squat1Kg r.Squat2Kg r.Squat3Kg r.Squat1Kg)))
      = 100 ∧
    (50 : ℚ) ≠ 100 := by
  refine ⟨annRow_mem, ?_, ?_, by norm_num⟩
  · rw [annRow_eq]
    norm_num [aggregatedSBDRowFor, groupRows, sqlAvg, sqlAbs, sqlMax, maxAbs3,
      percAttempt, lifterMetricOf, liftDifferencesUpdate, successfulAttemptsRow,
      countPos, annRecords, recordAnnFailed, recordAnnMade, blankRecord]
  · norm_num [sqlAvgOverPositive, sqlAvg, sqlAbs, sqlMax, maxAbs3, percAttempt,
      annRecords, recordAnnFailed, recordAnnMade, blankRecord]

/-- Witness for C4 at the concrete Ann store: the produced row is in
the table and its squat-1 average is the unrestricted group average. -/
theorem c4_amended_witness :
    annRow ∈ (runPipeline (initialState annRecords)).aggregated_metrics_sbd ∧
    annRow.AvgSquat1Perc
      = sqlAvg ((annRecords.filter (fun r =>
          r.Event == "SBD" && (r.Name == annRow.Name && r.Equipment == annRow.Equipment))).map
          (fun r => sqlAbs (percAttempt r.Squat1Kg r.Squat2Kg r.Squat3Kg r.Squat1Kg))) :=
  ⟨annRow_mem,
    ((c4_amended annRecords annRecords_key_nodup).1 annRow annRow_mem).1⟩
